import Mathlib

/-!
Verification of the survey intake backend (save/get/questions Lambda handlers).

Shallow embedding of the Python sources under `backend/lambda/`:

* `shared/s3_utils.py` — the S3 adapter (`read_json_file`, `write_json_file`,
  `upload_file`) and the response envelope builder (`lambda_response`);
* `save_response/lambda_function.py` — request-body parsing, validation,
  identifier sanitization, upsert with `submitted_at` preservation, and the
  per-file attachment loop;
* `get_response/lambda_function.py` — query parsing, validation, sanitization
  and document retrieval;
* `get_questions/lambda_function.py` — the `options` column parser.

Python dicts are modelled as association lists (first matching key wins on
lookup; assignment replaces in place, preserving insertion order), JSON values
as the inductive `JVal`, machine strings as Lean `String` restricted to the
behaviour the handlers exercise (the Python `str.isalnum` test is modelled on
the ASCII range), and the S3 bucket as an explicit `Store` value threaded
through the handlers.  Wall-clock time, the Lambda request id and `uuid4` are
parameters of the handlers, mirroring their single use sites.
-/

set_option maxHeartbeats 1000000

/-- JSON values (the payloads `json.loads`/`json.dumps` move around).
Numbers are modelled as integers: the handlers never compute with numeric
payload fields, and every number they *produce* (`len(...)`) is a
non-negative integer. -/
inductive JVal where
  | null
  | bool (b : Bool)
  | num (n : Int)
  | str (s : String)
  | arr (elems : List JVal)
  | obj (fields : List (String × JVal))
deriving Repr

/-- First-match association-list lookup: Python `d[k]` / `k in d` on a dict
(dict keys are unique, so first match is the only match). -/
def alookup {α : Type} : List (String × α) → String → Option α
  | [], _ => none
  | (k, v) :: rest, key => if k = key then some v else alookup rest key

/-- Python `d[k] = v` on a dict: replace in place when the key exists
(insertion order is preserved), otherwise append. -/
def aset {α : Type} : List (String × α) → String → α → List (String × α)
  | [], key, v => [(key, v)]
  | (k, w) :: rest, key, v =>
    if k = key then (k, v) :: rest else (k, w) :: aset rest key v

/-- Python truthiness (`if x:`) on JSON values. -/
def pyTruthy : JVal → Bool
  | .null => false
  | .bool b => b
  | .num n => n != 0
  | .str s => s != ""
  | .arr xs => !xs.isEmpty
  | .obj kvs => !kvs.isEmpty

/-- Truthiness of `d.get(k)`: `None` (absent key) is falsy. -/
def optTruthy : Option JVal → Bool
  | some v => pyTruthy v
  | none => false

/-- Python `v == s` for a payload value against a string literal (as used by
`response_type not in ['company', 'employee']`): only equal strings compare
equal; values of any other runtime type are unequal. -/
def optIsStr : Option JVal → String → Bool
  | some (.str t), s => t == s
  | _, _ => false

/-- Field access on a JSON value that is known to be an object (`d.get(k)`),
`none` otherwise. -/
def jget : JVal → String → Option JVal
  | .obj kvs, k => alookup kvs k
  | _, _ => none

/-- Optional strings (the Lambda `request_id`) as JSON: `None` is `null`. -/
def jstrOpt : Option String → JVal
  | some s => .str s
  | none => .null

/-- Python `len` on a JSON value: defined for sized values, `none` (a
`TypeError` at the call site) otherwise. -/
def pyLen : JVal → Option Nat
  | .str s => some s.length
  | .arr xs => some xs.length
  | .obj kvs => some kvs.length
  | _ => none

/-- The value `list(d.keys())` of a dict, serialized into the JSON
diagnostics the handlers attach to 400 responses. -/
def recvFields (kvs : List (String × JVal)) : JVal :=
  .arr (kvs.map (fun kv => JVal.str kv.1))

/-! ## Characters and strings, Python style (ASCII fragment) -/

/-- Python `str.isalnum()` on the ASCII range (the handlers write ASCII
identifiers). -/
def pyIsAlnum (c : Char) : Bool :=
  c.isAlpha || c.isDigit

/-- Python `''.join(c for c in s if c.isalnum() or c in '-_')` — the identifier
sanitizer used by `save_response` (both ids, line 158/160) and by
`get_response` for `company_id` (line 99). -/
def pySanitizeId (s : String) : String :=
  String.mk (s.data.filter (fun c => pyIsAlnum c || c = '-' || c = '_'))

/-- Python `''.join(c for c in employee_id if c.isalnum() or c in '-_.')` — the
sanitizer `get_response` applies to `employee_id` (line 101); unlike the save
side it also retains dots. -/
def pySanitizeIdDot (s : String) : String :=
  String.mk (s.data.filter (fun c => pyIsAlnum c || c = '-' || c = '_' || c = '.'))

/-- Python `''.join(c for c in filename if c.isalnum() or c in '.-_')` — the safe
file-name derivation in the attachment loop (line 223). -/
def pySanitizeFilename (s : String) : String :=
  String.mk (s.data.filter (fun c => pyIsAlnum c || c = '.' || c = '-' || c = '_'))

/-- Whitespace stripped by Python `str.strip()` (ASCII fragment). -/
def pySpace (c : Char) : Bool :=
  c = ' ' || c = '\t' || c = '\n' || c = '\x0d' || c = '\x0b' || c = '\x0c'

/-- Python `str.strip()`. -/
def pyStrip (s : String) : String :=
  String.mk (((s.data.dropWhile pySpace).reverse.dropWhile pySpace).reverse)

/-- Python `str.lower()` (ASCII fragment). -/
def pyLower (s : String) : String :=
  String.mk (s.data.map Char.toLower)

/-- Python `sep in s` for a one-character separator. -/
def strHasChar (s : String) (c : Char) : Bool :=
  s.data.contains c

/-- Python `s.split(sep)` for a one-character separator: splits at every
occurrence, keeping empty pieces. -/
def listSplit (sep : Char) : List Char → List (List Char)
  | [] => [[]]
  | c :: rest =>
    let r := listSplit sep rest
    if c = sep then [] :: r
    else
      match r with
      | h :: t => (c :: h) :: t
      | [] => [[c]]

/-- Boolean prefix test on character lists. -/
def charsPrefix : List Char → List Char → Bool
  | [], _ => true
  | _ :: _, [] => false
  | p :: ps, c :: cs => p = c && charsPrefix ps cs

/-- Boolean substring test on character lists. -/
def charsInfix (pat : List Char) : List Char → Bool
  | [] => pat.isEmpty
  | c :: rest => charsPrefix pat (c :: rest) || charsInfix pat rest

/-- Python `sub in s` (substring containment), as used by the `get_response`
error classifier. -/
def strInfix (pat s : String) : Bool :=
  charsInfix pat.data s.data

/-! ## Base64 (`base64.b64decode` with default arguments) -/

/-- Value of a standard base64 alphabet character. -/
def b64Val (c : Char) : Option Nat :=
  if 'A' ≤ c ∧ c ≤ 'Z' then some (c.toNat - 65)
  else if 'a' ≤ c ∧ c ≤ 'z' then some (c.toNat - 97 + 26)
  else if '0' ≤ c ∧ c ≤ '9' then some (c.toNat - 48 + 52)
  else if c = '+' then some 62
  else if c = '/' then some 63
  else none

/-- Decode a run of base64 quads (input already filtered to alphabet
characters and `=`).  A quad containing padding must be the final quad; a
trailing group shorter than four characters is a padding error. -/
def b64Quads : List Char → Option (List Nat)
  | [] => some []
  | c1 :: c2 :: c3 :: c4 :: rest =>
    match b64Val c1, b64Val c2 with
    | some v1, some v2 =>
      if c3 = '=' ∧ c4 = '=' then
        if rest.isEmpty then some [v1 * 4 + v2 / 16] else none
      else if c4 = '=' then
        match b64Val c3 with
        | some v3 =>
          if rest.isEmpty then some [v1 * 4 + v2 / 16, (v2 % 16) * 16 + v3 / 4] else none
        | none => none
      else
        match b64Val c3, b64Val c4 with
        | some v3, some v4 =>
          (b64Quads rest).map
            (fun bs => (v1 * 4 + v2 / 16) :: ((v2 % 16) * 16 + v3 / 4) :: ((v3 % 4) * 64 + v4) :: bs)
        | _, _ => none
    | _, _ => none
  | _ => none

/-- Python `base64.b64decode(s)` on a `str` argument: the string must be ASCII
(`s.encode('ascii')`), characters outside the alphabet are discarded, and the
remainder must decode as full quads with well-placed padding, else
`binascii.Error` (`none`). -/
def pyB64Decode (s : String) : Option (List Nat) :=
  if s.data.any (fun c => 128 ≤ c.toNat) then none
  else b64Quads (s.data.filter (fun c => (b64Val c).isSome || c = '='))

/-- Python `bytes.decode('utf-8')`: strict UTF-8 decoding of a byte list. -/
def utf8Dec : List Nat → Option (List Char)
  | [] => some []
  | b :: rest =>
    if b < 0x80 then (utf8Dec rest).map (Char.ofNat b :: ·)
    else if b < 0xC0 then none
    else if b < 0xE0 then
      match rest with
      | b2 :: r =>
        if 0x80 ≤ b2 ∧ b2 < 0xC0 then
          let cp := (b - 0xC0) * 64 + (b2 - 0x80)
          if cp < 0x80 then none else (utf8Dec r).map (Char.ofNat cp :: ·)
        else none
      | [] => none
    else if b < 0xF0 then
      match rest with
      | b2 :: b3 :: r =>
        if (0x80 ≤ b2 ∧ b2 < 0xC0) ∧ (0x80 ≤ b3 ∧ b3 < 0xC0) then
          let cp := (b - 0xE0) * 4096 + (b2 - 0x80) * 64 + (b3 - 0x80)
          if cp < 0x800 ∨ (0xD800 ≤ cp ∧ cp ≤ 0xDFFF) then none
          else (utf8Dec r).map (Char.ofNat cp :: ·)
        else none
      | _ => none
    else if b < 0xF8 then
      match rest with
      | b2 :: b3 :: b4 :: r =>
        if (0x80 ≤ b2 ∧ b2 < 0xC0) ∧ (0x80 ≤ b3 ∧ b3 < 0xC0) ∧ (0x80 ≤ b4 ∧ b4 < 0xC0) then
          let cp := (b - 0xF0) * 262144 + (b2 - 0x80) * 4096 + (b3 - 0x80) * 64 + (b4 - 0x80)
          if cp < 0x10000 ∨ 0x110000 ≤ cp then none
          else (utf8Dec r).map (Char.ofNat cp :: ·)
        else none
      | _ => none
    else none

/-- Python `bytes.decode('utf-8')` producing a string. -/
def utf8Decode (bs : List Nat) : Option String :=
  (utf8Dec bs).map String.mk

/-! ## `json.loads`

A recursive-descent parser for the JSON grammar accepted by Python's
`json.loads` (including its `NaN`/`Infinity` extensions; numeric values are
truncated to their integer part, which no handler ever inspects).  The mutual
recursion is fuelled; `2 * length + 4` fuel always suffices because every two
recursive steps consume at least one character. -/

/-- JSON insignificant whitespace. -/
def jsonWs (c : Char) : Bool :=
  c = ' ' || c = '\t' || c = '\n' || c = '\x0d'

/-- Hexadecimal digit value. -/
def hexVal (c : Char) : Option Nat :=
  if '0' ≤ c ∧ c ≤ '9' then some (c.toNat - 48)
  else if 'a' ≤ c ∧ c ≤ 'f' then some (c.toNat - 97 + 10)
  else if 'A' ≤ c ∧ c ≤ 'F' then some (c.toNat - 65 + 10)
  else none

/-- Parse a JSON string body (opening quote already consumed), handling the
escape sequences `json.loads` accepts and rejecting raw control characters. -/
def pStringAux : List Char → List Char → Option (String × List Char)
  | [], _ => none
  | '"' :: r, acc => some (String.mk acc.reverse, r)
  | '\\' :: e :: r, acc =>
    match e with
    | '"' => pStringAux r ('"' :: acc)
    | '\\' => pStringAux r ('\\' :: acc)
    | '/' => pStringAux r ('/' :: acc)
    | 'b' => pStringAux r ('\x08' :: acc)
    | 'f' => pStringAux r ('\x0c' :: acc)
    | 'n' => pStringAux r ('\n' :: acc)
    | 'r' => pStringAux r ('\x0d' :: acc)
    | 't' => pStringAux r ('\t' :: acc)
    | 'u' =>
      match r with
      | h1 :: h2 :: h3 :: h4 :: r2 =>
        match hexVal h1, hexVal h2, hexVal h3, hexVal h4 with
        | some a, some b, some c, some d =>
          pStringAux r2 (Char.ofNat (((a * 16 + b) * 16 + c) * 16 + d) :: acc)
        | _, _, _, _ => none
      | _ => none
    | _ => none
  | c :: r, acc => if c.toNat < 0x20 then none else pStringAux r (c :: acc)

/-- Decimal digit run to a natural number. -/
def digitsVal (ds : List Char) : Nat :=
  ds.foldl (fun acc c => acc * 10 + (c.toNat - 48)) 0

/-- Parse a JSON number (integer value only; the fractional part and exponent
are validated syntactically and discarded). -/
def pNum (cs : List Char) : Option (JVal × List Char) :=
  let signed := match cs with
    | '-' :: r => (true, r)
    | _ => (false, cs)
  match signed.2 with
  | c :: _ =>
    if c.isDigit then
      let ds := signed.2.takeWhile Char.isDigit
      let r1 := signed.2.dropWhile Char.isDigit
      if 1 < ds.length ∧ ds.headD '0' = '0' then none
      else
        let frac := match r1 with
          | '.' :: r =>
            if (r.takeWhile Char.isDigit).isEmpty then (false, r)
            else (true, r.dropWhile Char.isDigit)
          | _ => (true, r1)
        if !frac.1 then none
        else
          let expp := match frac.2 with
            | 'e' :: r | 'E' :: r =>
              let r' := match r with
                | '+' :: rr => rr
                | '-' :: rr => rr
                | _ => r
              if (r'.takeWhile Char.isDigit).isEmpty then (false, r')
              else (true, r'.dropWhile Char.isDigit)
            | _ => (true, frac.2)
          if !expp.1 then none
          else
            let n : Int := Int.ofNat (digitsVal ds)
            some (.num (if signed.1 then -n else n), expp.2)
    else none
  | [] => none

mutual

/-- Parse one JSON value (leading whitespace allowed). -/
def pJVal : Nat → List Char → Option (JVal × List Char)
  | 0, _ => none
  | Nat.succ fuel, cs0 =>
    let cs := cs0.dropWhile jsonWs
    match cs with
    | 'n' :: 'u' :: 'l' :: 'l' :: r => some (.null, r)
    | 't' :: 'r' :: 'u' :: 'e' :: r => some (.bool true, r)
    | 'f' :: 'a' :: 'l' :: 's' :: 'e' :: r => some (.bool false, r)
    | 'N' :: 'a' :: 'N' :: r => some (.num 0, r)
    | 'I' :: 'n' :: 'f' :: 'i' :: 'n' :: 'i' :: 't' :: 'y' :: r => some (.num 0, r)
    | '-' :: 'I' :: 'n' :: 'f' :: 'i' :: 'n' :: 'i' :: 't' :: 'y' :: r => some (.num 0, r)
    | '"' :: r => (pStringAux r []).map (fun p => (.str p.1, p.2))
    | '[' :: r =>
      let r1 := r.dropWhile jsonWs
      match r1 with
      | ']' :: r2 => some (.arr [], r2)
      | _ => (pElems fuel r1).map (fun p => (.arr p.1, p.2))
    | '{' :: r =>
      let r1 := r.dropWhile jsonWs
      match r1 with
      | '}' :: r2 => some (.obj [], r2)
      | _ =>
        (pMembers fuel r1).map
          (fun p => (.obj (p.1.foldl (fun acc kv => aset acc kv.1 kv.2) []), p.2))
    | _ => pNum cs

/-- Parse the elements of a non-empty JSON array. -/
def pElems : Nat → List Char → Option (List JVal × List Char)
  | 0, _ => none
  | Nat.succ fuel, cs =>
    match pJVal fuel cs with
    | some (v, r) =>
      match r.dropWhile jsonWs with
      | ',' :: r2 => (pElems fuel r2).map (fun p => (v :: p.1, p.2))
      | ']' :: r2 => some ([v], r2)
      | _ => none
    | none => none

/-- Parse the members of a non-empty JSON object. -/
def pMembers : Nat → List Char → Option (List (String × JVal) × List Char)
  | 0, _ => none
  | Nat.succ fuel, cs =>
    match cs.dropWhile jsonWs with
    | '"' :: r =>
      match pStringAux r [] with
      | some (k, r1) =>
        match r1.dropWhile jsonWs with
        | ':' :: r2 =>
          match pJVal fuel r2 with
          | some (v, r3) =>
            match r3.dropWhile jsonWs with
            | ',' :: r4 => (pMembers fuel r4).map (fun p => ((k, v) :: p.1, p.2))
            | '}' :: r4 => some ([(k, v)], r4)
            | _ => none
          | none => none
        | _ => none
      | none => none
    | _ => none

end

/-- Python `json.loads`: parse a complete document, allowing trailing whitespace
only.  Duplicate object keys resolve as Python dicts do (the fold through
`aset` keeps the first position, last value). -/
def pyJsonLoads (s : String) : Option JVal :=
  match pJVal (2 * s.data.length + 4) s.data with
  | some (v, r) => if (r.dropWhile jsonWs).isEmpty then some v else none
  | none => none

/-! ## The object store (`shared/s3_utils.py`)

`boto3` is modelled as a `Store` of JSON documents plus raw blobs, with a
fault-injection table: a key listed in `readFaults` makes `get_object` raise a
`ClientError` whose `str()` is the recorded message, a key absent from
`objects` raises `NoSuchKey`.  `writeLog` is an observation trace recording
each `put_object` of a JSON document in order. -/

structure Store where
  objects : List (String × JVal)
  blobs : List (String × List Nat)
  readFaults : List (String × String)
  writeLog : List (String × JVal)

/-- A bucket holding no objects and raising no faults. -/
def emptyStore : Store := ⟨[], [], [], []⟩

/-- Python `S3Utils.read_json_file` (s3_utils.py lines 57-90): a `NoSuchKey`
`ClientError` is swallowed and an empty dict returned ("this is okay for new
responses"); any other `ClientError` is re-raised (`.error` carries the
exception's string form). -/
def read_json_file (st : Store) (key : String) : Except String JVal :=
  match alookup st.readFaults key with
  | some msg => .error msg
  | none =>
    match alookup st.objects key with
    | some v => .ok v
    | none => .ok (.obj [])

/-- Python `S3Utils.write_json_file` (lines 92-120): overwrite the document at the
key; also appended to the observation trace `writeLog`. -/
def write_json_file (st : Store) (key : String) (doc : JVal) : Store :=
  { st with
    objects := aset st.objects key doc
    writeLog := st.writeLog ++ [(key, doc)] }

/-- Python `S3Utils.upload_file` (lines 122-149): store raw bytes at the key. -/
def upload_file (st : Store) (key : String) (content : List Nat) : Store :=
  { st with blobs := aset st.blobs key content }

/-! ## The response envelope builder (`lambda_response`, s3_utils.py 171-197) -/

structure LambdaResponse where
  statusCode : Nat
  headers : List (String × String)
  body : JVal

/-- The fixed header dict built by `lambda_response`. -/
def default_headers : List (String × String) :=
  [("Content-Type", "application/json"),
   ("Access-Control-Allow-Origin", "*"),
   ("Access-Control-Allow-Headers", "Content-Type,X-Amz-Date,Authorization,X-Api-Key,X-Amz-Security-Token"),
   ("Access-Control-Allow-Methods", "GET,POST,OPTIONS")]

/-- Python `dict.update`: each override replaces in place or appends. -/
def dictUpdate (d overrides : List (String × String)) : List (String × String) :=
  overrides.foldl (fun acc kv => aset acc kv.1 kv.2) d

/-- Python `lambda_response(status_code, body, headers=None)`: body serialized as-is
(the JSON value stands for its `json.dumps` serialization), headers are the
defaults updated by the caller's dict when one is supplied. -/
def lambda_response (statusCode : Nat) (body : JVal)
    (headers : Option (List (String × String))) : LambdaResponse :=
  { statusCode := statusCode
    headers :=
      match headers with
      | some h => if h.isEmpty then default_headers else dictUpdate default_headers h
      | none => default_headers
    body := body }

/-! ## Question catalog: the `options` column parser
(`get_questions/lambda_function.py` lines 206-218) -/

/-- Python `[opt.strip() for opt in s.split(sep) if opt.strip()]`. -/
def cleanSplit (sep : Char) (s : String) : List String :=
  ((listSplit sep s.data).map (fun cs => pyStrip (String.mk cs))).filter (fun t => t ≠ "")

/-- The `options` cell parser: strip the raw cell; an empty or
`none`/`null`-like value yields no options; otherwise split on `;` if
present, else on `|` if present, else a singleton of the (stripped) value.
Split pieces are stripped and empty pieces dropped. -/
def parseOptions (raw : String) : List String :=
  let os := pyStrip raw
  if os ≠ "" ∧ pyLower os ∉ (["", "none", "null"] : List String) then
    if strHasChar os ';' then cleanSplit ';' os
    else if strHasChar os '|' then cleanSplit '|' os
    else [pyStrip os]
  else []

/-! ## `get_response/lambda_function.py`

Events are Python dicts (`List (String × JVal)`); the handler's context
(`aws_request_id`) is the `reqId` parameter.  Every uncaught exception path of
the source (attribute errors on non-dict values, type errors when iterating a
non-string identifier) lands in the outer `except Exception` and is modelled
by the 500 response it produces. -/

/-- The `except Exception` 500 response of `get_response` (lines 149-156),
with the default `INFO` log level. -/
def getErr500 (reqId : Option String) : LambdaResponse :=
  lambda_response 500 (.obj
    [("error", .str "Internal server error"),
     ("message", .str "Failed to get response"),
     ("request_id", jstrOpt reqId),
     ("error_details", .str "Enable DEBUG logging for details")]) none

/-- Python `parse_query_params` (lines 25-38): prefer a truthy
`queryStringParameters`, fall back to `query` when present, else an empty
dict. -/
def parse_query_params (event : List (String × JVal)) : JVal :=
  match alookup event "queryStringParameters" with
  | some q =>
    if pyTruthy q then q
    else
      match alookup event "query" with
      | some q2 => q2
      | none => .obj []
  | none =>
    match alookup event "query" with
    | some q2 => q2
    | none => .obj []

/-- Python `get_response.lambda_handler` (lines 40-156). Validation happens on the
raw parameters; sanitization happens after validation; the storage read's
`NoSuchKey`-swallowing happens inside `read_json_file`, so the 404 branch
only fires for raised errors whose text mentions `nosuchkey`, `not found` or
`404`. -/
def get_lambda_handler (st : Store) (reqId : Option String)
    (event : List (String × JVal)) : LambdaResponse :=
  match parse_query_params event with
  | .obj qp =>
    let response_type := alookup qp "type"
    let company_id := alookup qp "company_id"
    let employee_id := alookup qp "employee_id"
    if !optTruthy response_type then
      lambda_response 400 (.obj
        [("error", .str "Missing type parameter"),
         ("message", .str "Type must be specified (company or employee)"),
         ("received_params", recvFields qp)]) none
    else if !optIsStr response_type "company" && !optIsStr response_type "employee" then
      lambda_response 400 (.obj
        [("error", .str "Invalid type parameter"),
         ("message", .str "Type must be either \"company\" or \"employee\""),
         ("received_type", (response_type).getD .null)]) none
    else if !optTruthy company_id then
      lambda_response 400 (.obj
        [("error", .str "Missing company_id parameter"),
         ("message", .str "Company ID is required"),
         ("received_params", recvFields qp)]) none
    else
      let rt := if optIsStr response_type "employee" then "employee" else "company"
      if rt = "employee" ∧ !optTruthy employee_id then
        lambda_response 400 (.obj
          [("error", .str "Missing employee_id parameter"),
           ("message", .str "Employee ID is required for employee responses"),
           ("received_params", recvFields qp)]) none
      else
        match company_id with
        | some (.str cid0) =>
          let cid := pySanitizeId cid0
          match
            (match employee_id with
             | some v =>
               if pyTruthy v then
                 match v with
                 | .str s => Except.ok (JVal.str (pySanitizeIdDot s))
                 | _ => Except.error ()
               else Except.ok v
             | none => Except.ok JVal.null) with
          | .error _ => getErr500 reqId
          | .ok eidV =>
            let json_key :=
              if rt = "company" then "companies/" ++ cid ++ "/form.json"
              else
                "companies/" ++ cid ++ "/employees/" ++
                  (match eidV with
                   | .str s => s
                   | _ => "") ++ ".json"
            match read_json_file st json_key with
            | .ok (.obj dk) =>
              lambda_response 200 (.obj
                [("found", .bool true),
                 ("type", .str rt),
                 ("company_id", .str cid),
                 ("employee_id", eidV),
                 ("responses", (alookup dk "responses").getD (.obj [])),
                 ("submitted_at", (alookup dk "submitted_at").getD .null),
                 ("updated_at", (alookup dk "updated_at").getD .null),
                 ("files", (alookup dk "files").getD (.arr [])),
                 ("storage_path", .str json_key),
                 ("request_id", jstrOpt reqId)]) none
            | .ok _ => getErr500 reqId
            | .error msg =>
              if strInfix "nosuchkey" (pyLower msg) || strInfix "not found" (pyLower msg)
                  || strInfix "404" (pyLower msg) then
                lambda_response 404 (.obj
                  [("found", .bool false),
                   ("message", .str "No existing response found"),
                   ("type", .str rt),
                   ("company_id", .str cid),
                   ("employee_id", eidV),
                   ("storage_path", .str json_key),
                   ("request_id", jstrOpt reqId)]) none
              else getErr500 reqId
        | _ => getErr500 reqId
  | _ => getErr500 reqId

/-! ## `save_response/lambda_function.py` -/

/-- Exceptions escaping `parse_request_body`: the `ValueError`s it raises
itself (caught by the handler and turned into 400s) versus anything else
(e.g. the `AttributeError` from `request_data.keys()` on a non-dict JSON
body), which only the outer `except Exception` catches. -/
inductive ParseErr where
  | valueError (msg : String)
  | other (msg : String)

/-- Python `parse_request_body` (lines 27-78): method 1 — a `body` key
(base64-decoded when flagged, then JSON-parsed when a string); method 2 —
the event itself when it has top-level `type` and `company_id`; method 3 — a
dict nested under `data`/`requestData`/`payload`; otherwise `ValueError`. -/
def parse_request_body (event : List (String × JVal)) :
    Except ParseErr (List (String × JVal)) :=
  match alookup event "body" with
  | some body0 =>
    let decoded : Except Unit JVal :=
      if optTruthy (alookup event "isBase64Encoded") then
        match body0 with
        | .str s =>
          match pyB64Decode s with
          | some bs =>
            match utf8Decode bs with
            | some s2 => .ok (.str s2)
            | none => .error ()
          | none => .error ()
        | _ => .error ()
      else .ok body0
    match decoded with
    | .error _ => .error (.valueError "Failed to decode base64 encoded body")
    | .ok body =>
      if pyTruthy body then
        match body with
        | .str s =>
          match pyJsonLoads s with
          | some (.obj kvs) => .ok kvs
          | some _ => .error (.other "AttributeError")
          | none => .error (.valueError "Request body must be valid JSON")
        | .obj kvs => .ok kvs
        | _ => .error (.other "AttributeError")
      else .ok []
  | none =>
    if (alookup event "type").isSome ∧ (alookup event "company_id").isSome then .ok event
    else
      match alookup event "data" with
      | some (.obj kvs) => .ok kvs
      | _ =>
        match alookup event "requestData" with
        | some (.obj kvs) => .ok kvs
        | _ =>
          match alookup event "payload" with
          | some (.obj kvs) => .ok kvs
          | _ => .error (.valueError "No valid request data found")

/-- The `except Exception` 500 response of `save_response` (lines 269-276). -/
def saveErr500 (reqId : Option String) : LambdaResponse :=
  lambda_response 500 (.obj
    [("error", .str "Internal server error"),
     ("message", .str "Failed to save response"),
     ("request_id", jstrOpt reqId),
     ("error_details", .str "Enable DEBUG logging for details")]) none

/-- The fresh response document (lines 164-176): a brand-new dict; the
`employee_id` key is added only when the sanitized id is truthy. -/
def saveBaseDoc (now : String) (reqId : Option String) (rt cid : String)
    (eid : Option String) (responses : JVal) : List (String × JVal) :=
  let rd0 : List (String × JVal) :=
    [("type", .str rt),
     ("company_id", .str cid),
     ("responses", responses),
     ("submitted_at", .str now),
     ("updated_at", .str now),
     ("request_id", jstrOpt reqId)]
  match eid with
  | some e => if e ≠ "" then aset rd0 "employee_id" (.str e) else rd0
  | none => rd0

/-- Storage-path derivation (lines 178-182). -/
def saveJsonKey (rt cid : String) (eid : Option String) : String :=
  if rt = "company" then "companies/" ++ cid ++ "/form.json"
  else "companies/" ++ cid ++ "/employees/" ++ (match eid with
    | some e => e
    | none => "") ++ ".json"

/-- The `submitted_at` preservation step (lines 184-192): read the existing document;
a truthy existing `submitted_at` is copied over; any exception (including a
read fault) is swallowed and the fresh timestamps kept. -/
def savePreserved (st : Store) (key : String)
    (rd1 : List (String × JVal)) : List (String × JVal) :=
  match read_json_file st key with
  | .ok (.obj ekvs) =>
    match alookup ekvs "submitted_at" with
    | some v => if pyTruthy v then aset rd1 "submitted_at" v else rd1
    | none => rd1
  | _ => rd1

/-- One pass of the per-file `try` body (lines 205-238) for a dict file
entry, minus the store write: returns the next `uuid4` counter and, when the
file is stored, its metadata record, object key and decoded bytes.  `none`
means the entry was skipped (empty content, undecodable content, or a
non-string filename whose `TypeError` the per-file `except` swallows).  The
`uuid4` in the `.get('filename', ...)` default argument is evaluated
unconditionally, consuming one fresh name per entry. -/
def fileStep (now cid eid : String) (fresh : Nat → String) (ctr : Nat)
    (fkvs : List (String × JVal)) :
    Nat × Option (List (String × JVal) × String × List Nat) :=
  let filename := (alookup fkvs "filename").getD (.str ("upload_" ++ fresh ctr))
  let ctr1 := ctr + 1
  let content_type := (alookup fkvs "content_type").getD (.str "application/octet-stream")
  let content_b64 := (alookup fkvs "content").getD (.str "")
  if !pyTruthy content_b64 then (ctr1, none)
  else
    match content_b64 with
    | .str cstr =>
      match pyB64Decode cstr with
      | none => (ctr1, none)
      | some bytes =>
        match filename with
        | .str fn =>
          let safe0 := pySanitizeFilename fn
          let safeCtr := if safe0 = "" then ("upload_" ++ fresh ctr1, ctr1 + 1)
            else (safe0, ctr1)
          let fkey := "companies/" ++ cid ++ "/employees/" ++ eid ++ "/files/" ++ safeCtr.1
          (safeCtr.2, some
            ([("filename", .str safeCtr.1),
              ("original_filename", .str fn),
              ("content_type", content_type),
              ("size", .num bytes.length),
              ("uploaded_at", .str now),
              ("file_key", .str fkey)], fkey, bytes))
        | _ => (ctr1, none)
    | _ => (ctr1, none)

/-- State threaded through the upload loop: the store, the `uuid4` counter,
the accumulated `uploaded_files` records, whether the Python loop variable
`filename` has been bound by an earlier iteration (a non-dict entry raises
`AttributeError`, and the `except` block's log line then raises `NameError`
only when `filename` was never bound), and whether that `NameError` aborted
the handler. -/
structure FilesOut where
  st : Store
  ctr : Nat
  ups : List JVal
  fnBound : Bool
  aborted : Bool

/-- The upload loop (lines 205-244). -/
def processFiles (now cid eid : String) (fresh : Nat → String) :
    FilesOut → List JVal → FilesOut
  | s, [] => s
  | s, f :: rest =>
    if s.aborted then s
    else
      match f with
      | .obj fkvs =>
        let step := fileStep now cid eid fresh s.ctr fkvs
        match step.2 with
        | some r =>
          processFiles now cid eid fresh
            ⟨upload_file s.st r.2.1 r.2.2, step.1, s.ups ++ [.obj r.1], true, false⟩ rest
        | none => processFiles now cid eid fresh ⟨s.st, step.1, s.ups, true, false⟩ rest
      | _ =>
        if s.fnBound then processFiles now cid eid fresh s rest
        else ⟨s.st, s.ctr, s.ups, s.fnBound, true⟩

/-- The 200 response of a completed save (lines 257-267); `len(responses)`
raises a `TypeError` (hence a 500, after the writes) when `responses` is not
a sized value. -/
def saveOk (now : String) (reqId : Option String) (rt cid : String)
    (eid : Option String) (responses : JVal) (json_key : String) (nUps : Nat)
    (stF : Store) : LambdaResponse × Store :=
  match pyLen responses with
  | some n =>
    (lambda_response 200 (.obj
      [("message", .str "Response saved successfully"),
       ("type", .str rt),
       ("company_id", .str cid),
       ("employee_id", match eid with
         | some e => .str e
         | none => .null),
       ("response_count", .num n),
       ("uploaded_files", .num nUps),
       ("saved_at", .str now),
       ("storage_path", .str json_key),
       ("request_id", jstrOpt reqId)]) none, stF)
  | none => (saveErr500 reqId, stF)

/-- Lines 164-267 of the save handler, after validation and sanitization:
build the fresh document, preserve `submitted_at`, write it, run the upload
loop for truthy `files` on employee saves (a truthy non-list `files` value
raises while iterating, after the first write), and re-write the document
with the `files` key exactly when at least one upload succeeded. -/
def saveCore (st : Store) (now : String) (reqId : Option String)
    (fresh : Nat → String) (rt cid : String) (eid : Option String)
    (responses files : JVal) : LambdaResponse × Store :=
  let rd1 := saveBaseDoc now reqId rt cid eid responses
  let json_key := saveJsonKey rt cid eid
  let rd2 := savePreserved st json_key rd1
  let st1 := write_json_file st json_key (.obj rd2)
  if pyTruthy files ∧ rt = "employee" then
    match files with
    | .arr fs =>
      let fo := processFiles now cid (match eid with
        | some e => e
        | none => "") fresh ⟨st1, 0, [], false, false⟩ fs
      if fo.aborted then (saveErr500 reqId, fo.st)
      else if fo.ups.isEmpty then saveOk now reqId rt cid eid responses json_key 0 fo.st
      else
        let rd3 := aset rd2 "files" (.arr fo.ups)
        saveOk now reqId rt cid eid responses json_key fo.ups.length
          (write_json_file fo.st json_key (.obj rd3))
    | _ => (saveErr500 reqId, st1)
  else saveOk now reqId rt cid eid responses json_key 0 st1

/-- Python `save_response.lambda_handler` (lines 80-276): parse the request body
(`ValueError` → 400, anything else → 500), validate `type`, `company_id` and
(for employee saves) `employee_id` on the raw values, sanitize, then run the
post-validation core.  Sanitizing a truthy non-string id raises `TypeError`
(500). -/
def save_lambda_handler (st : Store) (now : String) (reqId : Option String)
    (fresh : Nat → String) (event : List (String × JVal)) :
    LambdaResponse × Store :=
  match parse_request_body event with
  | .error (.valueError msg) =>
    (lambda_response 400 (.obj
      [("error", .str "Invalid request body"),
       ("message", .str msg),
       ("help", .str "Ensure request body contains valid JSON with required fields")]) none, st)
  | .error (.other _) => (saveErr500 reqId, st)
  | .ok rd =>
    let response_type := alookup rd "type"
    let company_id := alookup rd "company_id"
    let responses := (alookup rd "responses").getD (.obj [])
    if !optTruthy response_type then
      (lambda_response 400 (.obj
        [("error", .str "Missing type"),
         ("message", .str "Type must be specified (company or employee)"),
         ("received_fields", recvFields rd)]) none, st)
    else if !optIsStr response_type "company" && !optIsStr response_type "employee" then
      (lambda_response 400 (.obj
        [("error", .str "Invalid type"),
         ("message", .str "Type must be either \"company\" or \"employee\""),
         ("received_type", (response_type).getD .null)]) none, st)
    else if !optTruthy company_id then
      (lambda_response 400 (.obj
        [("error", .str "Missing company_id"),
         ("message", .str "Company ID is required"),
         ("received_fields", recvFields rd)]) none, st)
    else
      let rt := if optIsStr response_type "employee" then "employee" else "company"
      let employee_id0 : Option JVal :=
        if rt = "employee" then alookup rd "employee_id" else none
      if rt = "employee" ∧ !optTruthy employee_id0 then
        (lambda_response 400 (.obj
          [("error", .str "Missing employee_id"),
           ("message", .str "Employee ID is required for employee responses"),
           ("received_fields", recvFields rd)]) none, st)
      else
        match company_id with
        | some (.str cid0) =>
          let cid := pySanitizeId cid0
          let files := (alookup rd "files").getD (.arr [])
          match employee_id0 with
          | some (.str e0) =>
            saveCore st now reqId fresh rt cid (some (pySanitizeId e0)) responses files
          | some _ => (saveErr500 reqId, st)
          | none => saveCore st now reqId fresh rt cid none responses files
        | _ => (saveErr500 reqId, st)

/-- The metadata records the upload loop accumulates, as a pure function of
the request data (no store argument): used to state that the `files` list a
save re-persists is exactly this save's own uploads, independent of whatever
the stored document previously held. -/
def collectUploads (now cid eid : String) (fresh : Nat → String) :
    Nat → List JVal → List JVal
  | _, [] => []
  | ctr, f :: rest =>
    match f with
    | .obj fkvs =>
      let step := fileStep now cid eid fresh ctr fkvs
      match step.2 with
      | some r => .obj r.1 :: collectUploads now cid eid fresh step.1 rest
      | none => collectUploads now cid eid fresh step.1 rest
    | _ => collectUploads now cid eid fresh ctr rest

/-- A file entry whose `content` field is a non-empty string that decodes as
base64: exactly the entries the upload loop stores (for entries that also
carry a string `filename`). -/
def fileDecodes (f : JVal) : Bool :=
  match f with
  | .obj kvs =>
    match (alookup kvs "content").getD (.str "") with
    | .str s => s != "" && (pyB64Decode s).isSome
    | _ => false
  | _ => false

/-! ## Association-list and header-merge lemmas -/

theorem alookup_aset_self {α : Type} (l : List (String × α)) (k : String) (v : α) :
    alookup (aset l k v) k = some v := by
  induction l with
  | nil => simp [aset, alookup]
  | cons kv rest ih =>
    obtain ⟨k0, w⟩ := kv
    by_cases h : k0 = k
    · simp [aset, h, alookup]
    · simp [aset, h, alookup, ih]

theorem alookup_aset_ne {α : Type} (l : List (String × α)) (k k' : String) (v : α)
    (h : k' ≠ k) : alookup (aset l k v) k' = alookup l k' := by
  have h' : ¬k = k' := fun he => h he.symm
  induction l with
  | nil => simp [aset, alookup, h']
  | cons kv rest ih =>
    obtain ⟨k0, w⟩ := kv
    by_cases hk : k0 = k
    · subst hk
      simp [aset, alookup, h']
    · by_cases hk' : k0 = k'
      · simp [aset, hk, alookup, hk', h]
      · simp [aset, hk, alookup, hk', ih]

theorem dictUpdate_cons (d : List (String × String)) (kv : String × String)
    (t : List (String × String)) :
    dictUpdate d (kv :: t) = dictUpdate (aset d kv.1 kv.2) t := by
  simp [dictUpdate]

theorem dictUpdate_lookup_none (d h : List (String × String)) (k : String)
    (hk : alookup h k = none) : alookup (dictUpdate d h) k = alookup d k := by
  induction h generalizing d with
  | nil => simp [dictUpdate]
  | cons kv t ih =>
    rw [dictUpdate_cons]
    have hne : kv.1 ≠ k := by
      intro hh
      simp [alookup, hh] at hk
    have ht : alookup t k = none := by
      simpa [alookup, hne] using hk
    rw [ih _ ht, alookup_aset_ne _ _ _ _ (fun hh => hne hh.symm)]

theorem dictUpdate_lookup_some (d h : List (String × String)) (k : String) (v : String)
    (hnd : (h.map Prod.fst).Nodup) (hk : alookup h k = some v) :
    alookup (dictUpdate d h) k = some v := by
  induction h generalizing d with
  | nil => simp [alookup] at hk
  | cons kv t ih =>
    obtain ⟨k0, w⟩ := kv
    rw [dictUpdate_cons]
    by_cases hh : k0 = k
    · subst hh
      have hv : w = v := by
        simpa [alookup] using hk
      have hnotin : k0 ∉ t.map Prod.fst := by
        simpa using (List.nodup_cons.mp hnd).1
      have hkt : alookup t k0 = none := by
        clear hk hnd ih
        induction t with
        | nil => simp [alookup]
        | cons kv' t' ih' =>
          obtain ⟨k1, w1⟩ := kv'
          have h1 : ¬k1 = k0 := by
            intro he
            exact hnotin (by simp [he])
          have h2 : k0 ∉ t'.map Prod.fst := fun hmem => hnotin (by simp [hmem])
          simp [alookup, h1, ih' h2]
      rw [dictUpdate_lookup_none _ _ _ hkt, alookup_aset_self, hv]
    · have ht : alookup t k = some v := by
        simpa [alookup, hh] using hk
      exact ih _ (List.nodup_cons.mp hnd).2 ht

/-- On dot-free identifiers the save-side and get-side employee sanitizers
agree. -/
theorem sanitize_nodot (s : String) (h : '.' ∉ s.data) :
    pySanitizeIdDot s = pySanitizeId s := by
  unfold pySanitizeIdDot pySanitizeId
  congr 1
  apply List.filter_congr
  intro c hc
  have : c ≠ '.' := fun he => h (he ▸ hc)
  simp [this]

/-! ## Claim C1 -/

/-- C1: the claim fails on the code.  For a well-formed Get Response request
(`type=company`, `company_id=acme`) whose derived key `companies/acme/form.json`
holds no stored document, the handler returns **200** with `found: true` and an
empty `responses` payload — not the 404/`found:false` the claim requires —
because `read_json_file` swallows the storage layer's `NoSuchKey` into an empty
dict before the handler's 404 classifier can see it.  A non-`NoSuchKey` storage
fault at the same key is surfaced as a 500, as the claim says. -/
theorem c1_get_absent_key_returns_200_not_404 :
    (get_lambda_handler emptyStore none
      [("queryStringParameters",
        JVal.obj [("type", .str "company"), ("company_id", .str "acme")])]).statusCode = 200
    ∧ jget (get_lambda_handler emptyStore none
        [("queryStringParameters",
          JVal.obj [("type", .str "company"), ("company_id", .str "acme")])]).body "found"
        = some (.bool true)
    ∧ jget (get_lambda_handler emptyStore none
        [("queryStringParameters",
          JVal.obj [("type", .str "company"), ("company_id", .str "acme")])]).body "responses"
        = some (.obj [])
    ∧ alookup emptyStore.objects "companies/acme/form.json" = none
    ∧ (get_lambda_handler
        ⟨[], [],
         [("companies/acme/form.json",
           "An error occurred (AccessDenied) when calling the GetObject operation: Access Denied")],
         []⟩ none
        [("queryStringParameters",
          JVal.obj [("type", .str "company"), ("company_id", .str "acme")])]).statusCode = 500 :=
  ⟨rfl, rfl, rfl, rfl, rfl⟩

/-! ## Claim C2 -/

/-- C2: the claim fails on the code.  Save Response sanitizes `employee_id`
with retained set `[A-Za-z0-9_-]`, but Get Response retains dots as well, so
the identifier `john.doe` sanitizes differently on the two paths and a save
and a get for the same raw `(employee, acme, john.doe)` triple address two
different storage keys. -/
theorem c2_sanitizers_disagree_on_dotted_employee_id :
    pySanitizeId "john.doe" = "johndoe"
    ∧ pySanitizeIdDot "john.doe" = "john.doe"
    ∧ jget (save_lambda_handler emptyStore "T1" none (fun _ => "u")
        [("type", JVal.str "employee"), ("company_id", .str "acme"),
         ("employee_id", .str "john.doe"),
         ("responses", .obj [("q", .str "1")])]).1.body "storage_path"
        = some (.str "companies/acme/employees/johndoe.json")
    ∧ jget (get_lambda_handler
        (save_lambda_handler emptyStore "T1" none (fun _ => "u")
          [("type", JVal.str "employee"), ("company_id", .str "acme"),
           ("employee_id", .str "john.doe"),
           ("responses", .obj [("q", .str "1")])]).2 none
        [("queryStringParameters",
          JVal.obj [("type", .str "employee"), ("company_id", .str "acme"),
                    ("employee_id", .str "john.doe")])]).body "storage_path"
        = some (.str "companies/acme/employees/john.doe.json")
    ∧ ("companies/acme/employees/johndoe.json" : String)
        ≠ "companies/acme/employees/john.doe.json" :=
  ⟨rfl, rfl, rfl, rfl, by decide⟩

/-! ## Claim C3 — counterexample -/

/-- C3: the claim, as stated, is false.  A document saved with attachment
`a.txt` and then saved again (same key) with attachment `b.txt` ends up with
`files = [b.txt record]`: the save *replaced* the stored attachments list, it
did not append to it, and the first save's attachment record has been removed
from the stored document. -/
theorem c3_counterexample_prior_attachment_dropped :
    (alookup (save_lambda_handler emptyStore "T1" none (fun _ => "u")
        [("type", JVal.str "employee"), ("company_id", .str "acme"),
         ("employee_id", .str "bob"), ("responses", .obj [("q", .str "1")]),
         ("files", .arr [.obj [("filename", .str "a.txt"),
                               ("content", .str "aGVsbG8=")]])]).2.objects
      "companies/acme/employees/bob.json").map (fun d => jget d "files")
      = some (some (.arr [.obj
          [("filename", .str "a.txt"), ("original_filename", .str "a.txt"),
           ("content_type", .str "application/octet-stream"), ("size", .num 5),
           ("uploaded_at", .str "T1"),
           ("file_key", .str "companies/acme/employees/bob/files/a.txt")]]))
    ∧ (alookup (save_lambda_handler
        (save_lambda_handler emptyStore "T1" none (fun _ => "u")
          [("type", JVal.str "employee"), ("company_id", .str "acme"),
           ("employee_id", .str "bob"), ("responses", .obj [("q", .str "1")]),
           ("files", .arr [.obj [("filename", .str "a.txt"),
                                 ("content", .str "aGVsbG8=")]])]).2
        "T2" none (fun _ => "u")
        [("type", JVal.str "employee"), ("company_id", .str "acme"),
         ("employee_id", .str "bob"), ("responses", .obj [("q", .str "2")]),
         ("files", .arr [.obj [("filename", .str "b.txt"),
                               ("content", .str "d29ybGQ=")]])]).2.objects
      "companies/acme/employees/bob.json").map (fun d => jget d "files")
      = some (some (.arr [.obj
          [("filename", .str "b.txt"), ("original_filename", .str "b.txt"),
           ("content_type", .str "application/octet-stream"), ("size", .num 5),
           ("uploaded_at", .str "T2"),
           ("file_key", .str "companies/acme/employees/bob/files/b.txt")]]))
    ∧ (JVal.obj
          [("filename", .str "a.txt"), ("original_filename", .str "a.txt"),
           ("content_type", .str "application/octet-stream"), ("size", .num 5),
           ("uploaded_at", .str "T1"),
           ("file_key", .str "companies/acme/employees/bob/files/a.txt")])
        ∉ [JVal.obj
          [("filename", .str "b.txt"), ("original_filename", .str "b.txt"),
           ("content_type", .str "application/octet-stream"), ("size", .num 5),
           ("uploaded_at", .str "T2"),
           ("file_key", .str "companies/acme/employees/bob/files/b.txt")]] :=
  ⟨rfl, rfl, by simp⟩

/-! ## Claim C4 — counterexample -/

/-- C4: the claim, as stated, is false.  `company_id = "!!!"` is present (and
truthy) but sanitizes to the empty string; the save handler validates *before*
sanitizing, so instead of a 400 `MissingIdentifier` it returns 200 and writes
a document to the degenerate path `companies//form.json`. -/
theorem c4_counterexample_empty_sanitized_id_saved :
    (save_lambda_handler emptyStore "2024-01-01T00:00:00Z" none (fun _ => "u")
      [("type", JVal.str "company"), ("company_id", .str "!!!"),
       ("responses", .obj [])]).1.statusCode = 200
    ∧ pySanitizeId "!!!" = ""
    ∧ (alookup (save_lambda_handler emptyStore "2024-01-01T00:00:00Z" none (fun _ => "u")
        [("type", JVal.str "company"), ("company_id", .str "!!!"),
         ("responses", .obj [])]).2.objects "companies//form.json").isSome = true
    ∧ (save_lambda_handler emptyStore "2024-01-01T00:00:00Z" none (fun _ => "u")
        [("type", JVal.str "company"), ("company_id", .str "!!!"),
         ("responses", .obj [])]).2.writeLog.length = 1 :=
  ⟨rfl, rfl, rfl, rfl⟩

/-! ## Claim C5 — counterexample -/

/-- C5: the claim, as stated, is false for keys whose `employee_id` contains a
dot.  `(employee, c, a.b)` saved twice (with answers `{"q":"1"}` then
`{"q":"2"}` at times T1 < T2, both saves accepted with 200) and then read with
the same raw triple yields `responses = {}`, not the second save's answers:
the get derives a different storage key than the saves did (the C2 defect). -/
theorem c5_counterexample_dotted_employee_id :
    (save_lambda_handler (save_lambda_handler emptyStore "T1" none (fun _ => "u")
        [("type", JVal.str "employee"), ("company_id", .str "c"),
         ("employee_id", .str "a.b"), ("responses", .obj [("q", .str "1")])]).2
      "T2" none (fun _ => "u")
      [("type", JVal.str "employee"), ("company_id", .str "c"),
       ("employee_id", .str "a.b"),
       ("responses", .obj [("q", .str "2")])]).1.statusCode = 200
    ∧ jget (get_lambda_handler
        (save_lambda_handler (save_lambda_handler emptyStore "T1" none (fun _ => "u")
            [("type", JVal.str "employee"), ("company_id", .str "c"),
             ("employee_id", .str "a.b"), ("responses", .obj [("q", .str "1")])]).2
          "T2" none (fun _ => "u")
          [("type", JVal.str "employee"), ("company_id", .str "c"),
           ("employee_id", .str "a.b"),
           ("responses", .obj [("q", .str "2")])]).2 none
        [("queryStringParameters",
          JVal.obj [("type", .str "employee"), ("company_id", .str "c"),
                    ("employee_id", .str "a.b")])]).body "responses"
        = some (.obj [])
    ∧ (JVal.obj [("q", .str "2")]) ≠ JVal.obj [] :=
  ⟨rfl, rfl, by simp⟩

/-! ## Claim C7 -/

/-- C7: confirmed.  For every catalog `options` cell (the general clauses are
stated for already-stripped values, the form in which the claim's branch
conditions are phrased): an empty or `none`/`null`-valued cell (case
insensitive) parses to no options; a cell containing `;` is split on
semicolons; otherwise one containing `|` is split on pipes; otherwise the
parse is the singleton of the value.  Split pieces are individually stripped
and empty pieces dropped, exactly as the source's list comprehension does.
The claim's concrete examples evaluate as stated. -/
theorem c7_options_parsing :
    (∀ s : String, pyStrip s = s →
      ((s = "" ∨ pyLower s ∈ (["", "none", "null"] : List String)) → parseOptions s = [])
      ∧ (s ≠ "" → pyLower s ∉ (["", "none", "null"] : List String) →
          (strHasChar s ';' = true → parseOptions s = cleanSplit ';' s)
          ∧ (strHasChar s ';' = false → strHasChar s '|' = true →
              parseOptions s = cleanSplit '|' s)
          ∧ (strHasChar s ';' = false → strHasChar s '|' = false →
              parseOptions s = [s])))
    ∧ parseOptions "Yes;No;Maybe" = ["Yes", "No", "Maybe"]
    ∧ parseOptions "Single" = ["Single"]
    ∧ parseOptions "" = []
    ∧ parseOptions "none" = []
    ∧ parseOptions "NULL" = [] := by
  refine ⟨?_, by decide, by decide, by decide, by decide, by decide⟩
  intro s hs
  constructor
  · rintro (h | h)
    · subst h
      decide
    · simp [parseOptions, hs, h]
  · intro hne hnin
    refine ⟨?_, ?_, ?_⟩
    · intro hc
      simp [parseOptions, hs, hne, hnin, hc]
    · intro hc hp
      simp [parseOptions, hs, hne, hnin, hc, hp]
    · intro hc hp
      simp [parseOptions, hs, hne, hnin, hc, hp]

/-- Witness for C7 at concrete inputs: `"a|b"` is its own stripped form, has
no semicolon, has a pipe, and parses to the pipe-split. -/
theorem c7_options_parsing_witness :
    parseOptions "a|b" = cleanSplit '|' "a|b" ∧ cleanSplit '|' "a|b" = ["a", "b"] :=
  ⟨((c7_options_parsing.1 "a|b" (by decide)).2 (by decide) (by decide)).2.1
      (by decide) (by decide),
    by decide⟩

/-! ## Claim C9 -/

/-- C9: confirmed.  For every status code and body, the response envelope's
headers carry `Access-Control-Allow-Origin: *`, the allowed-headers list and
allowed methods `GET,POST,OPTIONS`; and for any caller-supplied override dict
(unique keys, as Python dicts have), the caller's value wins on every key
collision while non-colliding default headers are preserved. -/
theorem c9_response_headers_cors_and_overrides :
    (∀ (status : Nat) (body : JVal),
      alookup (lambda_response status body none).headers "Access-Control-Allow-Origin"
          = some "*"
      ∧ alookup (lambda_response status body none).headers "Access-Control-Allow-Headers"
          = some "Content-Type,X-Amz-Date,Authorization,X-Api-Key,X-Amz-Security-Token"
      ∧ alookup (lambda_response status body none).headers "Access-Control-Allow-Methods"
          = some "GET,POST,OPTIONS")
    ∧ (∀ (status : Nat) (body : JVal) (overrides : List (String × String)),
        (overrides.map Prod.fst).Nodup →
        ∀ k : String,
          (∀ v, alookup overrides k = some v →
            alookup (lambda_response status body (some overrides)).headers k = some v)
          ∧ (alookup overrides k = none →
            alookup (lambda_response status body (some overrides)).headers k
              = alookup default_headers k)) := by
  constructor
  · intro status body
    exact ⟨rfl, rfl, rfl⟩
  · intro status body overrides hnd k
    constructor
    · intro v hv
      match overrides, hv with
      | [], hv => simp [alookup] at hv
      | kv :: t, hv =>
        simpa [lambda_response, List.isEmpty] using
          dictUpdate_lookup_some default_headers (kv :: t) k v hnd hv
    · intro h0
      match overrides with
      | [] => simp [lambda_response, List.isEmpty]
      | kv :: t =>
        simpa [lambda_response, List.isEmpty] using
          dictUpdate_lookup_none default_headers (kv :: t) k h0

/-- Witness for C9 at concrete inputs: a caller override of `Content-Type`
wins, a non-colliding default (`Access-Control-Allow-Origin`) survives, and
an override-free 200 carries the allowed-methods header. -/
theorem c9_response_headers_witness :
    alookup (lambda_response 404 (.obj [])
        (some [("Content-Type", "text/html"), ("X-Extra", "1")])).headers "Content-Type"
      = some "text/html"
    ∧ alookup (lambda_response 404 (.obj [])
        (some [("Content-Type", "text/html"), ("X-Extra", "1")])).headers
        "Access-Control-Allow-Origin" = some "*"
    ∧ alookup (lambda_response 200 (.obj []) none).headers "Access-Control-Allow-Methods"
      = some "GET,POST,OPTIONS" :=
  ⟨((c9_response_headers_cors_and_overrides.2 404 (.obj [])
      [("Content-Type", "text/html"), ("X-Extra", "1")] (by decide) "Content-Type").1
      "text/html" (by decide)),
   ((c9_response_headers_cors_and_overrides.2 404 (.obj [])
      [("Content-Type", "text/html"), ("X-Extra", "1")] (by decide)
      "Access-Control-Allow-Origin").2 (by decide)).trans (by decide),
   (c9_response_headers_cors_and_overrides.1 200 (.obj [])).2.2⟩

/-! ## Handler-reduction and save-pipeline lemmas -/

/-- A direct-invocation company save event reduces to the post-validation
core on the sanitized identifier. -/
theorem save_handler_direct_company (st : Store) (now : String) (reqId : Option String)
    (fresh : Nat → String) (cid0 : String) (hc : cid0 ≠ "") (ans : JVal) :
    save_lambda_handler st now reqId fresh
      [("type", .str "company"), ("company_id", .str cid0), ("responses", ans)]
      = saveCore st now reqId fresh "company" (pySanitizeId cid0) none ans (.arr []) := by
  simp [save_lambda_handler, parse_request_body, alookup, optTruthy, pyTruthy, optIsStr, hc]

/-- A direct-invocation employee save event reduces to the post-validation
core on the sanitized identifiers. -/
theorem save_handler_direct_employee (st : Store) (now : String) (reqId : Option String)
    (fresh : Nat → String) (cid0 eid0 : String) (hc : cid0 ≠ "") (he : eid0 ≠ "")
    (ans fi : JVal) :
    save_lambda_handler st now reqId fresh
      [("type", .str "employee"), ("company_id", .str cid0), ("employee_id", .str eid0),
       ("responses", ans), ("files", fi)]
      = saveCore st now reqId fresh "employee" (pySanitizeId cid0)
          (some (pySanitizeId eid0)) ans fi := by
  simp [save_lambda_handler, parse_request_body, alookup, optTruthy, pyTruthy, optIsStr, hc, he]

/-- Field lookups in the fresh save document. -/
theorem saveBaseDoc_lookup (now : String) (reqId : Option String) (rt cid : String)
    (eid : Option String) (ans : JVal) :
    alookup (saveBaseDoc now reqId rt cid eid ans) "responses" = some ans
    ∧ alookup (saveBaseDoc now reqId rt cid eid ans) "submitted_at" = some (.str now)
    ∧ alookup (saveBaseDoc now reqId rt cid eid ans) "updated_at" = some (.str now)
    ∧ alookup (saveBaseDoc now reqId rt cid eid ans) "files" = none := by
  match eid with
  | none => simp [saveBaseDoc, alookup]
  | some e =>
    by_cases he : e = ""
    · simp [saveBaseDoc, he, alookup]
    · simp [saveBaseDoc, he, aset, alookup]

/-- The step `savePreserved` only ever touches the `submitted_at` field. -/
theorem savePreserved_lookup_ne (st : Store) (key : String)
    (rd1 : List (String × JVal)) (k : String) (hk : k ≠ "submitted_at") :
    alookup (savePreserved st key rd1) k = alookup rd1 k := by
  unfold savePreserved
  split
  · split
    · split
      · rw [alookup_aset_ne _ _ _ _ hk]
      · rfl
    · rfl
  · rfl

/-- When the stored document at the key carries a truthy `submitted_at`, the
save document inherits it. -/
theorem savePreserved_submitted (st : Store) (key : String)
    (rd1 : List (String × JVal)) (ekvs : List (String × JVal)) (v : JVal)
    (hflt : alookup st.readFaults key = none)
    (hobj : alookup st.objects key = some (.obj ekvs))
    (hsub : alookup ekvs "submitted_at" = some v) (htr : pyTruthy v = true) :
    savePreserved st key rd1 = aset rd1 "submitted_at" v := by
  simp [savePreserved, read_json_file, hflt, hobj, hsub, htr]

/-- When reading the existing document fails outright, the fresh timestamps
are kept. -/
theorem savePreserved_fault (st : Store) (key : String)
    (rd1 : List (String × JVal)) (msg : String)
    (hflt : alookup st.readFaults key = some msg) :
    savePreserved st key rd1 = rd1 := by
  simp [savePreserved, read_json_file, hflt]

/-- When no document is stored at the key, the fresh timestamps are kept. -/
theorem savePreserved_absent (st : Store) (key : String)
    (rd1 : List (String × JVal))
    (hflt : alookup st.readFaults key = none)
    (hobj : alookup st.objects key = none) :
    savePreserved st key rd1 = rd1 := by
  simp [savePreserved, read_json_file, hflt, hobj, alookup]

/-- The upload loop on dict-only entries: never aborts, accumulates exactly
`collectUploads`, and touches neither the documents nor the write trace. -/
theorem processFiles_spec (now cid eid : String) (fresh : Nat → String) :
    ∀ (fs : List JVal) (s : FilesOut),
      (∀ f ∈ fs, ∃ kvs, f = .obj kvs) → s.aborted = false →
      (processFiles now cid eid fresh s fs).ups
          = s.ups ++ collectUploads now cid eid fresh s.ctr fs
      ∧ (processFiles now cid eid fresh s fs).aborted = false
      ∧ (processFiles now cid eid fresh s fs).st.objects = s.st.objects
      ∧ (processFiles now cid eid fresh s fs).st.writeLog = s.st.writeLog
      ∧ (processFiles now cid eid fresh s fs).st.readFaults = s.st.readFaults := by
  intro fs
  induction fs with
  | nil =>
    intro s hobj hab
    simp [processFiles, collectUploads, hab]
  | cons f rest ih =>
    intro s hobj hab
    obtain ⟨kvs, rfl⟩ := hobj f (by simp)
    have hrest : ∀ g ∈ rest, ∃ kvs, g = .obj kvs := fun g hg => hobj g (by simp [hg])
    rw [processFiles]
    simp only [hab, if_false, Bool.false_eq_true]
    cases hstep : (fileStep now cid eid fresh s.ctr kvs).2 with
    | some r =>
      have h := ih ⟨upload_file s.st r.2.1 r.2.2, (fileStep now cid eid fresh s.ctr kvs).1,
        s.ups ++ [.obj r.1], true, false⟩ hrest rfl
      simp only [hstep]
      refine ⟨?_, h.2.1, ?_, ?_, ?_⟩
      · rw [h.1]
        simp [collectUploads, hstep]
      · rw [h.2.2.1]
        rfl
      · rw [h.2.2.2.1]
        rfl
      · rw [h.2.2.2.2]
        rfl
    | none =>
      have h := ih ⟨s.st, (fileStep now cid eid fresh s.ctr kvs).1, s.ups, true, false⟩
        hrest rfl
      simp only [hstep]
      refine ⟨?_, h.2.1, h.2.2.1, h.2.2.2.1, h.2.2.2.2⟩
      rw [h.1]
      simp [collectUploads, hstep]

/-- The post-validation employee save on a list of dict file entries:
returns 200, reports exactly its own uploads, and stores at the derived key a
document whose `files` field is exactly this save's uploads (absent when none
succeeded) — independent of the prior store contents. -/
theorem saveCore_employee_result (st : Store) (now : String) (reqId : Option String)
    (fresh : Nat → String) (cid eid : String) (ans : JVal) (fs : List JVal) (n : Nat)
    (hn : pyLen ans = some n) (hobj : ∀ f ∈ fs, ∃ kvs, f = .obj kvs) :
    (saveCore st now reqId fresh "employee" cid (some eid) ans (.arr fs)).1.statusCode = 200
    ∧ jget (saveCore st now reqId fresh "employee" cid (some eid) ans (.arr fs)).1.body
        "uploaded_files"
        = some (.num ((collectUploads now cid eid fresh 0 fs).length : Nat))
    ∧ ∃ kvs,
        alookup (saveCore st now reqId fresh "employee" cid (some eid) ans (.arr fs)).2.objects
            (saveJsonKey "employee" cid (some eid)) = some (.obj kvs)
        ∧ alookup kvs "files"
            = (if (collectUploads now cid eid fresh 0 fs).isEmpty then none
               else some (.arr (collectUploads now cid eid fresh 0 fs)))
        ∧ alookup kvs "responses" = some ans := by
  have hbase := saveBaseDoc_lookup now reqId "employee" cid (some eid) ans
  have hfl : alookup (savePreserved st (saveJsonKey "employee" cid (some eid))
      (saveBaseDoc now reqId "employee" cid (some eid) ans)) "files" = none := by
    rw [savePreserved_lookup_ne st (saveJsonKey "employee" cid (some eid))
      (saveBaseDoc now reqId "employee" cid (some eid) ans) "files" (by decide)]
    exact hbase.2.2.2
  have hre : alookup (savePreserved st (saveJsonKey "employee" cid (some eid))
      (saveBaseDoc now reqId "employee" cid (some eid) ans)) "responses" = some ans := by
    rw [savePreserved_lookup_ne st (saveJsonKey "employee" cid (some eid))
      (saveBaseDoc now reqId "employee" cid (some eid) ans) "responses" (by decide)]
    exact hbase.1
  cases fs with
  | nil =>
    refine ⟨?_, ?_, ⟨savePreserved st (saveJsonKey "employee" cid (some eid))
        (saveBaseDoc now reqId "employee" cid (some eid) ans), ?_, ?_, ?_⟩⟩
    · simp [saveCore, saveOk, hn, pyTruthy, lambda_response]
    · simp [saveCore, saveOk, hn, pyTruthy, lambda_response, jget, alookup, collectUploads]
    · simp [saveCore, saveOk, hn, pyTruthy, write_json_file, alookup_aset_self]
    · simp [collectUploads, hfl]
    · exact hre
  | cons f rest =>
    have hspec := processFiles_spec now cid eid fresh (f :: rest)
      ⟨write_json_file st (saveJsonKey "employee" cid (some eid))
        (.obj (savePreserved st (saveJsonKey "employee" cid (some eid))
          (saveBaseDoc now reqId "employee" cid (some eid) ans))), 0, [], false, false⟩
      hobj rfl
    have hcore : saveCore st now reqId fresh "employee" cid (some eid) ans (.arr (f :: rest))
        = (let fo := processFiles now cid eid fresh
            ⟨write_json_file st (saveJsonKey "employee" cid (some eid))
              (.obj (savePreserved st (saveJsonKey "employee" cid (some eid))
                (saveBaseDoc now reqId "employee" cid (some eid) ans))), 0, [], false, false⟩
            (f :: rest)
           if fo.aborted then (saveErr500 reqId, fo.st)
           else if fo.ups.isEmpty then
             saveOk now reqId "employee" cid (some eid) ans
               (saveJsonKey "employee" cid (some eid)) 0 fo.st
           else
             saveOk now reqId "employee" cid (some eid) ans
               (saveJsonKey "employee" cid (some eid)) fo.ups.length
               (write_json_file fo.st (saveJsonKey "employee" cid (some eid))
                 (.obj (aset (savePreserved st (saveJsonKey "employee" cid (some eid))
                   (saveBaseDoc now reqId "employee" cid (some eid) ans))
                   "files" (.arr fo.ups))))) := by
      simp only [saveCore, pyTruthy]
      norm_num
    rw [hcore]
    simp only []
    rw [hspec.2.1]
    simp only [if_false, Bool.false_eq_true, reduceIte]
    have hups : (processFiles now cid eid fresh
        ⟨write_json_file st (saveJsonKey "employee" cid (some eid))
          (.obj (savePreserved st (saveJsonKey "employee" cid (some eid))
            (saveBaseDoc now reqId "employee" cid (some eid) ans))), 0, [], false, false⟩
        (f :: rest)).ups = collectUploads now cid eid fresh 0 (f :: rest) := by
      simpa using hspec.1
    rw [hups]
    by_cases hemp : (collectUploads now cid eid fresh 0 (f :: rest)).isEmpty
    · rw [if_pos hemp]
      have hlen : (collectUploads now cid eid fresh 0 (f :: rest)).length = 0 := by
        simpa [List.isEmpty_iff] using hemp
      refine ⟨?_, ?_, ⟨savePreserved st (saveJsonKey "employee" cid (some eid))
          (saveBaseDoc now reqId "employee" cid (some eid) ans), ?_, ?_, ?_⟩⟩
      · simp [saveOk, hn, lambda_response]
      · simp [saveOk, hn, lambda_response, jget, alookup, hlen]
      · simp only [saveOk, hn]
        rw [hspec.2.2.1]
        simp [write_json_file, alookup_aset_self]
      · simp [hemp, hfl]
      · exact hre
    · rw [if_neg hemp]
      refine ⟨?_, ?_, ⟨aset (savePreserved st (saveJsonKey "employee" cid (some eid))
          (saveBaseDoc now reqId "employee" cid (some eid) ans)) "files"
          (.arr (collectUploads now cid eid fresh 0 (f :: rest))), ?_, ?_, ?_⟩⟩
      · simp [saveOk, hn, lambda_response]
      · simp [saveOk, hn, lambda_response, jget, alookup]
      · simp [saveOk, hn, write_json_file, alookup_aset_self]
      · rw [alookup_aset_self]
        simp [hemp]
      · rw [alookup_aset_ne _ _ _ _ (by decide)]
        exact hre

/-- The upload loop skips every entry whose `content` is empty or fails
base64 decoding, leaving the store and the accumulated uploads untouched. -/
theorem processFiles_all_skipped (now cid eid : String) (fresh : Nat → String) :
    ∀ (fs : List JVal) (s : FilesOut),
      (∀ f ∈ fs, ∃ kvs cstr, f = .obj kvs
        ∧ (alookup kvs "content").getD (.str "") = .str cstr
        ∧ (cstr = "" ∨ pyB64Decode cstr = none)) →
      s.aborted = false →
      (processFiles now cid eid fresh s fs).st = s.st
      ∧ (processFiles now cid eid fresh s fs).ups = s.ups
      ∧ (processFiles now cid eid fresh s fs).aborted = false := by
  intro fs
  induction fs with
  | nil =>
    intro s hskip hab
    simp [processFiles, hab]
  | cons f rest ih =>
    intro s hskip hab
    obtain ⟨kvs, cstr, rfl, hcon, hsk⟩ := hskip f (by simp)
    have hrest : ∀ g ∈ rest, ∃ kvs cstr, g = .obj kvs
        ∧ (alookup kvs "content").getD (.str "") = .str cstr
        ∧ (cstr = "" ∨ pyB64Decode cstr = none) :=
      fun g hg => hskip g (by simp [hg])
    have hstep : (fileStep now cid eid fresh s.ctr kvs).2 = none := by
      rcases hsk with h | h
      · simp [fileStep, hcon, h, pyTruthy]
      · by_cases hz : cstr = ""
        · simp [fileStep, hcon, hz, pyTruthy]
        · simp [fileStep, hcon, h, hz, pyTruthy]
    rw [processFiles]
    simp only [hab, Bool.false_eq_true, if_false, hstep]
    exact ih ⟨s.st, (fileStep now cid eid fresh s.ctr kvs).1, s.ups, true, false⟩ hrest rfl

/-- On well-formed file entries (dicts with a string `filename` and a string
`content`), the number of uploads the loop stores is the number of entries
whose content is non-empty and base64-decodable. -/
theorem collectUploads_length (now cid eid : String) (fresh : Nat → String) :
    ∀ (fs : List JVal) (ctr : Nat),
      (∀ f ∈ fs, ∃ kvs, f = .obj kvs
        ∧ (∃ fn, alookup kvs "filename" = some (.str fn))
        ∧ (∃ cstr, alookup kvs "content" = some (.str cstr))) →
      (collectUploads now cid eid fresh ctr fs).length = fs.countP fileDecodes := by
  intro fs
  induction fs with
  | nil =>
    intro ctr hwf
    simp [collectUploads]
  | cons f rest ih =>
    intro ctr hwf
    obtain ⟨kvs, rfl, ⟨fn, hfn⟩, ⟨cstr, hcs⟩⟩ := hwf f (by simp)
    have hrest : ∀ g ∈ rest, ∃ kvs, g = .obj kvs
        ∧ (∃ fn, alookup kvs "filename" = some (.str fn))
        ∧ (∃ cstr, alookup kvs "content" = some (.str cstr)) :=
      fun g hg => hwf g (by simp [hg])
    by_cases hz : cstr = ""
    · have hstep : (fileStep now cid eid fresh ctr kvs).2 = none := by
        simp [fileStep, hcs, hz, pyTruthy]
      have hdec : fileDecodes (.obj kvs) = false := by
        simp [fileDecodes, hcs, hz]
      simp [collectUploads, hstep, List.countP_cons, hdec, ih _ hrest]
    · cases hb : pyB64Decode cstr with
      | none =>
        have hstep : (fileStep now cid eid fresh ctr kvs).2 = none := by
          simp [fileStep, hcs, hz, pyTruthy, hb]
        have hdec : fileDecodes (.obj kvs) = false := by
          simp [fileDecodes, hcs, hz, hb]
        simp [collectUploads, hstep, List.countP_cons, hdec, ih _ hrest]
      | some bytes =>
        have hdec : fileDecodes (.obj kvs) = true := by
          simp [fileDecodes, hcs, hz, hb]
        have hstep : ∃ r, (fileStep now cid eid fresh ctr kvs).2 = some r := by
          simp [fileStep, hcs, hz, pyTruthy, hb, hfn]
        obtain ⟨r, hstep⟩ := hstep
        simp [collectUploads, hstep, List.countP_cons, hdec, ih _ hrest]

/-! ## Claim C3 — amended -/

/-- C3 (amended): a save does not append to the stored attachments list — it
replaces the stored document wholesale.  For every prior store state, an
employee save stores at its derived key a document whose `files` field is
exactly the list of records uploaded by *this* save (and is absent when this
save uploaded nothing); attachment records held by the previously stored
document are thereby removed rather than preserved.  Within the single save,
records are only ever appended to the accumulated upload list
(`collectUploads`). -/
theorem c3_amended_save_replaces_files (st : Store) (now : String)
    (reqId : Option String) (fresh : Nat → String) (cid0 eid0 : String)
    (ans : JVal) (fs : List JVal) (n : Nat)
    (hc : cid0 ≠ "") (he : eid0 ≠ "") (hn : pyLen ans = some n)
    (hobj : ∀ f ∈ fs, ∃ kvs, f = .obj kvs) :
    ∃ kvs,
      alookup (save_lambda_handler st now reqId fresh
          [("type", .str "employee"), ("company_id", .str cid0),
           ("employee_id", .str eid0), ("responses", ans),
           ("files", .arr fs)]).2.objects
          (saveJsonKey "employee" (pySanitizeId cid0) (some (pySanitizeId eid0)))
        = some (.obj kvs)
      ∧ alookup kvs "files"
          = (if (collectUploads now (pySanitizeId cid0) (pySanitizeId eid0)
                  fresh 0 fs).isEmpty then none
             else some (.arr (collectUploads now (pySanitizeId cid0)
                  (pySanitizeId eid0) fresh 0 fs))) := by
  rw [save_handler_direct_employee st now reqId fresh cid0 eid0 hc he ans (.arr fs)]
  obtain ⟨kvs, h1, h2, h3⟩ :=
    (saveCore_employee_result st now reqId fresh (pySanitizeId cid0)
      (pySanitizeId eid0) ans fs n hn hobj).2.2
  exact ⟨kvs, h1, h2⟩

/-- Witness for C3 (amended): a prior store already holding a document with
an attachment record for this key; the save with one fresh file `b.txt`
leaves exactly that one new record in the stored document. -/
theorem c3_amended_save_replaces_files_witness :
    ∃ kvs,
      alookup (save_lambda_handler
          ⟨[("companies/acme/employees/bob.json",
             .obj [("responses", .obj []),
                   ("files", .arr [.obj [("filename", .str "a.txt")]])])], [], [], []⟩
          "T2" none (fun _ => "u")
          [("type", .str "employee"), ("company_id", .str "acme"),
           ("employee_id", .str "bob"), ("responses", .obj []),
           ("files", .arr [.obj [("filename", .str "b.txt"),
                                 ("content", .str "d29ybGQ=")]])]).2.objects
          (saveJsonKey "employee" (pySanitizeId "acme") (some (pySanitizeId "bob")))
        = some (.obj kvs)
      ∧ alookup kvs "files"
          = (if (collectUploads "T2" (pySanitizeId "acme") (pySanitizeId "bob")
                  (fun _ => "u") 0
                  [.obj [("filename", .str "b.txt"),
                         ("content", .str "d29ybGQ=")]]).isEmpty then none
             else some (.arr (collectUploads "T2" (pySanitizeId "acme")
                  (pySanitizeId "bob") (fun _ => "u") 0
                  [.obj [("filename", .str "b.txt"),
                         ("content", .str "d29ybGQ=")]]))) :=
  c3_amended_save_replaces_files
    ⟨[("companies/acme/employees/bob.json",
       .obj [("responses", .obj []),
             ("files", .arr [.obj [("filename", .str "a.txt")]])])], [], [], []⟩
    "T2" none (fun _ => "u") "acme" "bob" (.obj [])
    [.obj [("filename", .str "b.txt"), ("content", .str "d29ybGQ=")]] 0
    (by decide) (by decide) rfl
    (by
      intro f hf
      rw [List.mem_singleton] at hf
      exact ⟨_, hf⟩)

/-! ## Claim C6 -/

/-- C6: confirmed.  For every employee save whose `files` list consists of
well-formed entries (dicts with string `filename` and string `content`) and
contains at least one entry that fails to decode and at least one that
decodes, the operation returns 200 and reports `uploaded_files` equal to the
number of entries that decoded (and were stored): strictly between 0 and the
number of files.  One bad attachment never aborts the batch or the save. -/
theorem c6_partial_attachment_tolerance (st : Store) (now : String)
    (reqId : Option String) (fresh : Nat → String) (cid0 eid0 : String)
    (ans : JVal) (fs : List JVal) (n : Nat)
    (hc : cid0 ≠ "") (he : eid0 ≠ "") (hn : pyLen ans = some n)
    (hwf : ∀ f ∈ fs, ∃ kvs, f = .obj kvs
      ∧ (∃ fn, alookup kvs "filename" = some (.str fn))
      ∧ (∃ cstr, alookup kvs "content" = some (.str cstr)))
    (hbad : ∃ f ∈ fs, fileDecodes f = false)
    (hgood : ∃ f ∈ fs, fileDecodes f = true) :
    (save_lambda_handler st now reqId fresh
        [("type", .str "employee"), ("company_id", .str cid0),
         ("employee_id", .str eid0), ("responses", ans),
         ("files", .arr fs)]).1.statusCode = 200
    ∧ jget (save_lambda_handler st now reqId fresh
        [("type", .str "employee"), ("company_id", .str cid0),
         ("employee_id", .str eid0), ("responses", ans),
         ("files", .arr fs)]).1.body "uploaded_files"
        = some (.num (fs.countP fileDecodes : Nat))
    ∧ 1 ≤ fs.countP fileDecodes
    ∧ fs.countP fileDecodes < fs.length := by
  rw [save_handler_direct_employee st now reqId fresh cid0 eid0 hc he ans (.arr fs)]
  have hobj : ∀ f ∈ fs, ∃ kvs, f = .obj kvs := by
    intro f hf
    obtain ⟨kvs, hkv, _, _⟩ := hwf f hf
    exact ⟨kvs, hkv⟩
  have hr := saveCore_employee_result st now reqId fresh (pySanitizeId cid0)
    (pySanitizeId eid0) ans fs n hn hobj
  have hlen := collectUploads_length now (pySanitizeId cid0) (pySanitizeId eid0)
    fresh fs 0 hwf
  refine ⟨hr.1, ?_, ?_, ?_⟩
  · rw [hr.2.1, hlen]
  · obtain ⟨f, hf, hdec⟩ := hgood
    exact List.countP_pos_iff.mpr ⟨f, hf, hdec⟩
  · obtain ⟨f, hf, hdec⟩ := hbad
    refine lt_of_le_of_ne (List.countP_le_length fileDecodes) ?_
    intro hcontra
    have := (List.countP_eq_length.mp hcontra) f hf
    rw [hdec] at this
    cases this

/-- Witness for C6: two files, one undecodable (`"abc"`), one valid
(`"aGVsbG8="`): the bad one is skipped and the count is strictly between 0
and 2. -/
theorem c6_partial_attachment_tolerance_witness :
    (save_lambda_handler emptyStore "T1" none (fun _ => "u")
        [("type", .str "employee"), ("company_id", .str "acme"),
         ("employee_id", .str "bob"), ("responses", .obj []),
         ("files", .arr [.obj [("filename", .str "c.txt"), ("content", .str "abc")],
                         .obj [("filename", .str "a.txt"),
                               ("content", .str "aGVsbG8=")]])]).1.statusCode = 200
    ∧ jget (save_lambda_handler emptyStore "T1" none (fun _ => "u")
        [("type", .str "employee"), ("company_id", .str "acme"),
         ("employee_id", .str "bob"), ("responses", .obj []),
         ("files", .arr [.obj [("filename", .str "c.txt"), ("content", .str "abc")],
                         .obj [("filename", .str "a.txt"),
                               ("content", .str "aGVsbG8=")]])]).1.body "uploaded_files"
        = some (.num (([.obj [("filename", .str "c.txt"), ("content", .str "abc")],
                        .obj [("filename", .str "a.txt"),
                              ("content", .str "aGVsbG8=")]] : List JVal).countP
                      fileDecodes : Nat))
    ∧ 1 ≤ ([.obj [("filename", .str "c.txt"), ("content", .str "abc")],
            .obj [("filename", .str "a.txt"),
                  ("content", .str "aGVsbG8=")]] : List JVal).countP fileDecodes
    ∧ ([.obj [("filename", .str "c.txt"), ("content", .str "abc")],
        .obj [("filename", .str "a.txt"),
              ("content", .str "aGVsbG8=")]] : List JVal).countP fileDecodes < 2 :=
  c6_partial_attachment_tolerance emptyStore "T1" none (fun _ => "u") "acme" "bob"
    (.obj [])
    [.obj [("filename", .str "c.txt"), ("content", .str "abc")],
     .obj [("filename", .str "a.txt"), ("content", .str "aGVsbG8=")]] 0
    (by decide) (by decide) rfl
    (by
      intro f hf
      simp only [List.mem_cons, List.not_mem_nil, or_false] at hf
      rcases hf with hf | hf
      · exact ⟨_, hf, ⟨"c.txt", rfl⟩, ⟨"abc", rfl⟩⟩
      · exact ⟨_, hf, ⟨"a.txt", rfl⟩, ⟨"aGVsbG8=", rfl⟩⟩)
    ⟨.obj [("filename", .str "c.txt"), ("content", .str "abc")], by simp, rfl⟩
    ⟨.obj [("filename", .str "a.txt"), ("content", .str "aGVsbG8=")], by simp, rfl⟩

/-! ## Claim C10 -/

/-- C10: confirmed.  For every employee save whose file entries all have an
empty or undecodable `content`, every entry is skipped without raising: the
operation still returns 200 with `uploaded_files = 0`, the answers document
was persisted by the first (and only) document write, no blob is uploaded,
and the stored document carries no `files` field. -/
theorem c10_all_files_skipped (st : Store) (now : String) (reqId : Option String)
    (fresh : Nat → String) (cid0 eid0 : String) (ans : JVal) (fs : List JVal) (n : Nat)
    (hc : cid0 ≠ "") (he : eid0 ≠ "") (hn : pyLen ans = some n)
    (hskip : ∀ f ∈ fs, ∃ kvs cstr, f = .obj kvs
      ∧ (alookup kvs "content").getD (.str "") = .str cstr
      ∧ (cstr = "" ∨ pyB64Decode cstr = none)) :
    (save_lambda_handler st now reqId fresh
        [("type", .str "employee"), ("company_id", .str cid0),
         ("employee_id", .str eid0), ("responses", ans),
         ("files", .arr fs)]).1.statusCode = 200
    ∧ jget (save_lambda_handler st now reqId fresh
        [("type", .str "employee"), ("company_id", .str cid0),
         ("employee_id", .str eid0), ("responses", ans),
         ("files", .arr fs)]).1.body "uploaded_files" = some (.num 0)
    ∧ (save_lambda_handler st now reqId fresh
        [("type", .str "employee"), ("company_id", .str cid0),
         ("employee_id", .str eid0), ("responses", ans),
         ("files", .arr fs)]).2.blobs = st.blobs
    ∧ ∃ kvs,
        alookup (save_lambda_handler st now reqId fresh
            [("type", .str "employee"), ("company_id", .str cid0),
             ("employee_id", .str eid0), ("responses", ans),
             ("files", .arr fs)]).2.objects
            (saveJsonKey "employee" (pySanitizeId cid0) (some (pySanitizeId eid0)))
          = some (.obj kvs)
        ∧ alookup kvs "responses" = some ans
        ∧ alookup kvs "files" = none
        ∧ (save_lambda_handler st now reqId fresh
            [("type", .str "employee"), ("company_id", .str cid0),
             ("employee_id", .str eid0), ("responses", ans),
             ("files", .arr fs)]).2.writeLog
            = st.writeLog
              ++ [(saveJsonKey "employee" (pySanitizeId cid0) (some (pySanitizeId eid0)),
                   .obj kvs)] := by
  rw [save_handler_direct_employee st now reqId fresh cid0 eid0 hc he ans (.arr fs)]
  set sc := pySanitizeId cid0 with hsc
  set se := pySanitizeId eid0 with hse
  set key := saveJsonKey "employee" sc (some se) with hkey
  set rd1 := saveBaseDoc now reqId "employee" sc (some se) ans with hrd1
  set rd2 := savePreserved st key rd1 with hrd2
  have hbase := saveBaseDoc_lookup now reqId "employee" sc (some se) ans
  have hfl : alookup rd2 "files" = none := by
    rw [hrd2, savePreserved_lookup_ne st key rd1 "files" (by decide)]
    exact hbase.2.2.2
  have hre : alookup rd2 "responses" = some ans := by
    rw [hrd2, savePreserved_lookup_ne st key rd1 "responses" (by decide)]
    exact hbase.1
  have hfin : saveCore st now reqId fresh "employee" sc (some se) ans (.arr fs)
      = saveOk now reqId "employee" sc (some se) ans key 0
          (write_json_file st key (.obj rd2)) := by
    cases fs with
    | nil => simp [saveCore, pyTruthy, hkey, hrd2, hrd1]
    | cons f rest =>
      have hsk := processFiles_all_skipped now sc se fresh (f :: rest)
        ⟨write_json_file st key (.obj rd2), 0, [], false, false⟩ hskip rfl
      have hcore : saveCore st now reqId fresh "employee" sc (some se) ans
          (.arr (f :: rest))
          = (let fo := processFiles now sc se fresh
              ⟨write_json_file st key (.obj rd2), 0, [], false, false⟩ (f :: rest)
             if fo.aborted then (saveErr500 reqId, fo.st)
             else if fo.ups.isEmpty then
               saveOk now reqId "employee" sc (some se) ans key 0 fo.st
             else
               saveOk now reqId "employee" sc (some se) ans key fo.ups.length
                 (write_json_file fo.st key (.obj (aset rd2 "files" (.arr fo.ups))))) := by
        simp only [saveCore, pyTruthy, hkey, hrd2, hrd1]
        norm_num
      rw [hcore]
      simp only []
      rw [hsk.2.2, hsk.2.1, hsk.1]
      simp
  rw [hfin]
  refine ⟨?_, ?_, ?_, ⟨rd2, ?_, hre, hfl, ?_⟩⟩
  · simp [saveOk, hn, lambda_response]
  · simp [saveOk, hn, lambda_response, jget, alookup]
  · simp [saveOk, hn, write_json_file]
  · simp [saveOk, hn, write_json_file, alookup_aset_self]
  · simp [saveOk, hn, write_json_file]

/-- Witness for C10: two entries, one with empty content and one with
undecodable content; the save returns 200 with no uploads, one document
write, and no `files` field. -/
theorem c10_all_files_skipped_witness :
    (save_lambda_handler emptyStore "T1" none (fun _ => "u")
        [("type", .str "employee"), ("company_id", .str "acme"),
         ("employee_id", .str "bob"), ("responses", .obj []),
         ("files", .arr [.obj [("filename", .str "d.txt"), ("content", .str "")],
                         .obj [("filename", .str "c.txt"),
                               ("content", .str "abc")]])]).1.statusCode = 200
    ∧ jget (save_lambda_handler emptyStore "T1" none (fun _ => "u")
        [("type", .str "employee"), ("company_id", .str "acme"),
         ("employee_id", .str "bob"), ("responses", .obj []),
         ("files", .arr [.obj [("filename", .str "d.txt"), ("content", .str "")],
                         .obj [("filename", .str "c.txt"),
                               ("content", .str "abc")]])]).1.body "uploaded_files"
        = some (.num 0)
    ∧ (save_lambda_handler emptyStore "T1" none (fun _ => "u")
        [("type", .str "employee"), ("company_id", .str "acme"),
         ("employee_id", .str "bob"), ("responses", .obj []),
         ("files", .arr [.obj [("filename", .str "d.txt"), ("content", .str "")],
                         .obj [("filename", .str "c.txt"),
                               ("content", .str "abc")]])]).2.blobs = emptyStore.blobs
    ∧ ∃ kvs,
        alookup (save_lambda_handler emptyStore "T1" none (fun _ => "u")
            [("type", .str "employee"), ("company_id", .str "acme"),
             ("employee_id", .str "bob"), ("responses", .obj []),
             ("files", .arr [.obj [("filename", .str "d.txt"), ("content", .str "")],
                             .obj [("filename", .str "c.txt"),
                                   ("content", .str "abc")]])]).2.objects
            (saveJsonKey "employee" (pySanitizeId "acme") (some (pySanitizeId "bob")))
          = some (.obj kvs)
        ∧ alookup kvs "responses" = some (.obj [])
        ∧ alookup kvs "files" = none
        ∧ (save_lambda_handler emptyStore "T1" none (fun _ => "u")
            [("type", .str "employee"), ("company_id", .str "acme"),
             ("employee_id", .str "bob"), ("responses", .obj []),
             ("files", .arr [.obj [("filename", .str "d.txt"), ("content", .str "")],
                             .obj [("filename", .str "c.txt"),
                                   ("content", .str "abc")]])]).2.writeLog
            = emptyStore.writeLog
              ++ [(saveJsonKey "employee" (pySanitizeId "acme") (some (pySanitizeId "bob")),
                   .obj kvs)] :=
  c10_all_files_skipped emptyStore "T1" none (fun _ => "u") "acme" "bob" (.obj [])
    [.obj [("filename", .str "d.txt"), ("content", .str "")],
     .obj [("filename", .str "c.txt"), ("content", .str "abc")]] 0
    (by decide) (by decide) rfl
    (by
      intro f hf
      simp only [List.mem_cons, List.not_mem_nil, or_false] at hf
      rcases hf with hf | hf
      · exact ⟨_, "", hf, rfl, Or.inl rfl⟩
      · exact ⟨_, "abc", hf, rfl, Or.inr rfl⟩)

/-! ## Claim C4 — amended -/

/-- C4 (amended): identifier validation happens before sanitization, so only
an identifier that is missing or empty *before* sanitization is rejected with
a 400.  An identifier that is present and truthy but sanitizes to the empty
string is NOT rejected: for every such `company_id`, the save returns 200 (not
400), derives the degenerate storage path `companies//form.json` containing
the empty sanitized identifier, and performs the document write there. -/
theorem c4_amended_sanitize_to_empty_not_rejected (st : Store) (now : String)
    (reqId : Option String) (fresh : Nat → String) (cid0 : String) (ans : JVal) (n : Nat)
    (hc : cid0 ≠ "") (hsan : pySanitizeId cid0 = "") (hn : pyLen ans = some n) :
    (save_lambda_handler st now reqId fresh
        [("type", .str "company"), ("company_id", .str cid0),
         ("responses", ans)]).1.statusCode = 200
    ∧ (save_lambda_handler st now reqId fresh
        [("type", .str "company"), ("company_id", .str cid0),
         ("responses", ans)]).1.statusCode ≠ 400
    ∧ jget (save_lambda_handler st now reqId fresh
        [("type", .str "company"), ("company_id", .str cid0),
         ("responses", ans)]).1.body "storage_path"
        = some (.str "companies//form.json")
    ∧ (alookup (save_lambda_handler st now reqId fresh
        [("type", .str "company"), ("company_id", .str cid0),
         ("responses", ans)]).2.objects "companies//form.json").isSome = true := by
  rw [save_handler_direct_company st now reqId fresh cid0 hc ans, hsan]
  refine ⟨?_, ?_, ?_, ?_⟩
  · simp [saveCore, pyTruthy, saveOk, hn, lambda_response]
  · simp [saveCore, pyTruthy, saveOk, hn, lambda_response]
  · simp [saveCore, pyTruthy, saveOk, hn, lambda_response, jget, alookup, saveJsonKey]
  · simp [saveCore, pyTruthy, saveOk, hn, saveJsonKey, write_json_file, alookup_aset_self]

/-- Witness for C4 (amended) at `company_id = "!!!"`. -/
theorem c4_amended_sanitize_to_empty_witness :
    (save_lambda_handler emptyStore "T1" none (fun _ => "u")
        [("type", .str "company"), ("company_id", .str "!!!"),
         ("responses", .obj [])]).1.statusCode = 200
    ∧ (save_lambda_handler emptyStore "T1" none (fun _ => "u")
        [("type", .str "company"), ("company_id", .str "!!!"),
         ("responses", .obj [])]).1.statusCode ≠ 400
    ∧ jget (save_lambda_handler emptyStore "T1" none (fun _ => "u")
        [("type", .str "company"), ("company_id", .str "!!!"),
         ("responses", .obj [])]).1.body "storage_path"
        = some (.str "companies//form.json")
    ∧ (alookup (save_lambda_handler emptyStore "T1" none (fun _ => "u")
        [("type", .str "company"), ("company_id", .str "!!!"),
         ("responses", .obj [])]).2.objects "companies//form.json").isSome = true :=
  c4_amended_sanitize_to_empty_not_rejected emptyStore "T1" none (fun _ => "u")
    "!!!" (.obj []) 0 (by decide) (by decide) rfl

/-! ## Claim C8 — parse-failure lemmas -/

/-- With no `body` key, no top-level `type`/`company_id` pair, and no dict
under any recognized envelope key, every extraction strategy fails and
`parse_request_body` raises its terminal `ValueError`. -/
theorem parse_request_body_no_strategy (event : List (String × JVal))
    (hb : alookup event "body" = none)
    (htc : ¬((alookup event "type").isSome ∧ (alookup event "company_id").isSome))
    (h1 : ∀ kvs, alookup event "data" ≠ some (.obj kvs))
    (h2 : ∀ kvs, alookup event "requestData" ≠ some (.obj kvs))
    (h3 : ∀ kvs, alookup event "payload" ≠ some (.obj kvs)) :
    parse_request_body event = .error (.valueError "No valid request data found") := by
  simp only [parse_request_body, hb]
  rw [if_neg htc]

/-- A non-empty string body that is not valid JSON raises the JSON
`ValueError`. -/
theorem parse_request_body_invalid_json (event : List (String × JVal)) (s : String)
    (hb : alookup event "body" = some (.str s))
    (hflag : optTruthy (alookup event "isBase64Encoded") = false)
    (hs : s ≠ "") (hj : pyJsonLoads s = none) :
    parse_request_body event = .error (.valueError "Request body must be valid JSON") := by
  simp [parse_request_body, hb, hflag, pyTruthy, hs, hj]

/-- A base64-flagged string body whose decode chain (base64, then UTF-8)
fails raises the decode `ValueError`. -/
theorem parse_request_body_b64_fail (event : List (String × JVal)) (s : String)
    (hb : alookup event "body" = some (.str s))
    (hflag : optTruthy (alookup event "isBase64Encoded") = true)
    (hfail : (pyB64Decode s).bind utf8Decode = none) :
    parse_request_body event
      = .error (.valueError "Failed to decode base64 encoded body") := by
  simp only [parse_request_body, hb, hflag]
  rcases hd : pyB64Decode s with _ | bs
  · simp [hd]
  · have hu : utf8Decode bs = none := by simpa [hd] using hfail
    simp [hd, hu]

/-- A base64-flagged string body whose decode chain succeeds but yields a
non-empty string that is not valid JSON raises the JSON `ValueError`. -/
theorem parse_request_body_b64_invalid_json (event : List (String × JVal))
    (s s2 : String)
    (hb : alookup event "body" = some (.str s))
    (hflag : optTruthy (alookup event "isBase64Encoded") = true)
    (hchain : (pyB64Decode s).bind utf8Decode = some s2)
    (hs2 : s2 ≠ "") (hj : pyJsonLoads s2 = none) :
    parse_request_body event
      = .error (.valueError "Request body must be valid JSON") := by
  simp only [parse_request_body, hb, hflag]
  rcases hd : pyB64Decode s with _ | bs
  · rw [hd] at hchain
    cases hchain
  · have hu : utf8Decode bs = some s2 := by simpa [hd] using hchain
    simp [hd, hu, pyTruthy, hs2, hj]

/-- A `ValueError` from `parse_request_body` is converted into the standard
400 response and the store is untouched. -/
theorem save_handler_parse_error (st : Store) (now : String) (reqId : Option String)
    (fresh : Nat → String) (event : List (String × JVal)) (msg : String)
    (hp : parse_request_body event = .error (.valueError msg)) :
    save_lambda_handler st now reqId fresh event
      = (lambda_response 400 (.obj
          [("error", .str "Invalid request body"),
           ("message", .str msg),
           ("help", .str "Ensure request body contains valid JSON with required fields")])
          none, st) := by
  simp [save_lambda_handler, hp]

/-! ## Claim C8 -/

/-- C8: confirmed.  Every inbound save event from which no extraction
strategy yields usable request data (no `body`, no top-level
`type`/`company_id` pair, no dict under `data`/`requestData`/`payload`)
produces a 400 `Invalid request body` response with the store untouched; and
every event whose `body` is (after optional base64 decoding) not valid JSON,
or whose flagged body fails to decode at all, likewise produces a 400 —
never a 200 and never a silent continuation with null identifiers. -/
theorem c8_malformed_request_400 :
    (∀ (st : Store) (now : String) (reqId : Option String) (fresh : Nat → String)
        (event : List (String × JVal)),
      alookup event "body" = none →
      ¬((alookup event "type").isSome ∧ (alookup event "company_id").isSome) →
      (∀ kvs, alookup event "data" ≠ some (.obj kvs)) →
      (∀ kvs, alookup event "requestData" ≠ some (.obj kvs)) →
      (∀ kvs, alookup event "payload" ≠ some (.obj kvs)) →
      (save_lambda_handler st now reqId fresh event).1.statusCode = 400
      ∧ jget (save_lambda_handler st now reqId fresh event).1.body "error"
          = some (.str "Invalid request body")
      ∧ (save_lambda_handler st now reqId fresh event).2 = st)
    ∧ (∀ (st : Store) (now : String) (reqId : Option String) (fresh : Nat → String)
        (event : List (String × JVal)) (s : String),
      alookup event "body" = some (.str s) →
      optTruthy (alookup event "isBase64Encoded") = false →
      s ≠ "" → pyJsonLoads s = none →
      (save_lambda_handler st now reqId fresh event).1.statusCode = 400
      ∧ jget (save_lambda_handler st now reqId fresh event).1.body "message"
          = some (.str "Request body must be valid JSON")
      ∧ (save_lambda_handler st now reqId fresh event).2 = st)
    ∧ (∀ (st : Store) (now : String) (reqId : Option String) (fresh : Nat → String)
        (event : List (String × JVal)) (s : String),
      alookup event "body" = some (.str s) →
      optTruthy (alookup event "isBase64Encoded") = true →
      (pyB64Decode s).bind utf8Decode = none →
      (save_lambda_handler st now reqId fresh event).1.statusCode = 400
      ∧ jget (save_lambda_handler st now reqId fresh event).1.body "message"
          = some (.str "Failed to decode base64 encoded body")
      ∧ (save_lambda_handler st now reqId fresh event).2 = st)
    ∧ (∀ (st : Store) (now : String) (reqId : Option String) (fresh : Nat → String)
        (event : List (String × JVal)) (s s2 : String),
      alookup event "body" = some (.str s) →
      optTruthy (alookup event "isBase64Encoded") = true →
      (pyB64Decode s).bind utf8Decode = some s2 →
      s2 ≠ "" → pyJsonLoads s2 = none →
      (save_lambda_handler st now reqId fresh event).1.statusCode = 400
      ∧ jget (save_lambda_handler st now reqId fresh event).1.body "message"
          = some (.str "Request body must be valid JSON")
      ∧ (save_lambda_handler st now reqId fresh event).2 = st) := by
  refine ⟨?_, ?_, ?_, ?_⟩
  · intro st now reqId fresh event hb htc h1 h2 h3
    rw [save_handler_parse_error st now reqId fresh event _
      (parse_request_body_no_strategy event hb htc h1 h2 h3)]
    exact ⟨rfl, rfl, rfl⟩
  · intro st now reqId fresh event s hb hflag hs hj
    rw [save_handler_parse_error st now reqId fresh event _
      (parse_request_body_invalid_json event s hb hflag hs hj)]
    exact ⟨rfl, rfl, rfl⟩
  · intro st now reqId fresh event s hb hflag hfail
    rw [save_handler_parse_error st now reqId fresh event _
      (parse_request_body_b64_fail event s hb hflag hfail)]
    exact ⟨rfl, rfl, rfl⟩
  · intro st now reqId fresh event s s2 hb hflag hchain hs2 hj
    rw [save_handler_parse_error st now reqId fresh event _
      (parse_request_body_b64_invalid_json event s s2 hb hflag hchain hs2 hj)]
    exact ⟨rfl, rfl, rfl⟩

/-- Witness for C8: an event offering no strategy at all (`{"foo": null}`)
and an event with the unparseable body `"{"` both yield 400. -/
theorem c8_malformed_request_400_witness :
    ((save_lambda_handler emptyStore "T" none (fun _ => "u")
        [("foo", JVal.null)]).1.statusCode = 400
      ∧ jget (save_lambda_handler emptyStore "T" none (fun _ => "u")
          [("foo", JVal.null)]).1.body "error" = some (.str "Invalid request body")
      ∧ (save_lambda_handler emptyStore "T" none (fun _ => "u")
          [("foo", JVal.null)]).2 = emptyStore)
    ∧ ((save_lambda_handler emptyStore "T" none (fun _ => "u")
        [("body", JVal.str "\x7b")]).1.statusCode = 400
      ∧ jget (save_lambda_handler emptyStore "T" none (fun _ => "u")
          [("body", JVal.str "\x7b")]).1.body "message"
          = some (.str "Request body must be valid JSON")
      ∧ (save_lambda_handler emptyStore "T" none (fun _ => "u")
          [("body", JVal.str "\x7b")]).2 = emptyStore) :=
  ⟨c8_malformed_request_400.1 emptyStore "T" none (fun _ => "u") [("foo", JVal.null)]
      rfl (by decide)
      (by intro kvs h; simp [alookup] at h)
      (by intro kvs h; simp [alookup] at h)
      (by intro kvs h; simp [alookup] at h),
   c8_malformed_request_400.2.1 emptyStore "T" none (fun _ => "u")
      [("body", JVal.str "\x7b")] "\x7b" rfl rfl (by decide) rfl⟩

/-! ## Get-handler reduction lemmas -/

/-- A well-formed company get whose derived key holds a stored dict document
returns the 200 `found` payload built from that document. -/
theorem get_handler_company_found (st : Store) (reqId : Option String) (cid0 : String)
    (hc : cid0 ≠ "") (doc : List (String × JVal))
    (hflt : alookup st.readFaults
      ("companies/" ++ pySanitizeId cid0 ++ "/form.json") = none)
    (hobj : alookup st.objects
      ("companies/" ++ pySanitizeId cid0 ++ "/form.json") = some (.obj doc)) :
    get_lambda_handler st reqId
      [("queryStringParameters",
        JVal.obj [("type", .str "company"), ("company_id", .str cid0)])]
      = lambda_response 200 (.obj
          [("found", .bool true),
           ("type", .str "company"),
           ("company_id", .str (pySanitizeId cid0)),
           ("employee_id", .null),
           ("responses", (alookup doc "responses").getD (.obj [])),
           ("submitted_at", (alookup doc "submitted_at").getD .null),
           ("updated_at", (alookup doc "updated_at").getD .null),
           ("files", (alookup doc "files").getD (.arr [])),
           ("storage_path", .str ("companies/" ++ pySanitizeId cid0 ++ "/form.json")),
           ("request_id", jstrOpt reqId)]) none := by
  simp [get_lambda_handler, parse_query_params, alookup, optTruthy, pyTruthy, optIsStr,
        read_json_file, hflt, hobj, hc]

/-- A well-formed employee get whose derived key holds a stored dict document
returns the 200 `found` payload built from that document (note the dotted
sanitizer on the employee id). -/
theorem get_handler_employee_found (st : Store) (reqId : Option String)
    (cid0 eid0 : String) (hc : cid0 ≠ "") (he : eid0 ≠ "")
    (doc : List (String × JVal))
    (hflt : alookup st.readFaults
      ("companies/" ++ pySanitizeId cid0 ++ "/employees/"
        ++ pySanitizeIdDot eid0 ++ ".json") = none)
    (hobj : alookup st.objects
      ("companies/" ++ pySanitizeId cid0 ++ "/employees/"
        ++ pySanitizeIdDot eid0 ++ ".json") = some (.obj doc)) :
    get_lambda_handler st reqId
      [("queryStringParameters",
        JVal.obj [("type", .str "employee"), ("company_id", .str cid0),
                  ("employee_id", .str eid0)])]
      = lambda_response 200 (.obj
          [("found", .bool true),
           ("type", .str "employee"),
           ("company_id", .str (pySanitizeId cid0)),
           ("employee_id", .str (pySanitizeIdDot eid0)),
           ("responses", (alookup doc "responses").getD (.obj [])),
           ("submitted_at", (alookup doc "submitted_at").getD .null),
           ("updated_at", (alookup doc "updated_at").getD .null),
           ("files", (alookup doc "files").getD (.arr [])),
           ("storage_path", .str ("companies/" ++ pySanitizeId cid0 ++ "/employees/"
             ++ pySanitizeIdDot eid0 ++ ".json")),
           ("request_id", jstrOpt reqId)]) none := by
  simp [get_lambda_handler, parse_query_params, alookup, optTruthy, pyTruthy, optIsStr,
        read_json_file, hflt, hobj, hc, he]

/-- A company save with no files reduces to the timestamp-preserving write. -/
theorem saveCore_company_eq (st : Store) (now : String) (reqId : Option String)
    (fresh : Nat → String) (cid : String) (ans : JVal) :
    saveCore st now reqId fresh "company" cid none ans (.arr [])
      = saveOk now reqId "company" cid none ans
          ("companies/" ++ cid ++ "/form.json") 0
          (write_json_file st ("companies/" ++ cid ++ "/form.json")
            (.obj (savePreserved st ("companies/" ++ cid ++ "/form.json")
              (saveBaseDoc now reqId "company" cid none ans)))) := by
  simp [saveCore, pyTruthy, saveJsonKey]

/-- An employee save with no files reduces to the timestamp-preserving
write. -/
theorem saveCore_employee_noFiles_eq (st : Store) (now : String)
    (reqId : Option String) (fresh : Nat → String) (cid eid : String) (ans : JVal) :
    saveCore st now reqId fresh "employee" cid (some eid) ans (.arr [])
      = saveOk now reqId "employee" cid (some eid) ans
          ("companies/" ++ cid ++ "/employees/" ++ eid ++ ".json") 0
          (write_json_file st ("companies/" ++ cid ++ "/employees/" ++ eid ++ ".json")
            (.obj (savePreserved st
              ("companies/" ++ cid ++ "/employees/" ++ eid ++ ".json")
              (saveBaseDoc now reqId "employee" cid (some eid) ans)))) := by
  simp [saveCore, pyTruthy, saveJsonKey]

/-! ## Claim C5 — amended -/

/-- C5 (amended): the idempotent-key upsert behaves as claimed for every key
whose identifiers sanitize the same way on save and on get — all company
keys, and employee keys whose `employee_id` contains no dot (dotted employee
ids fall to the C2 defect).  Saved twice with different answers at strictly
increasing timestamps T1 < T2 (T1 non-empty), both saves return 200 and a
subsequent get returns 200 with the second save's answers, `submitted_at`
equal to the first save's timestamp, and `updated_at` equal to the strictly
later second timestamp.  Moreover a read *fault* at the derived key does not
abort a save: it returns 200 and stores `submitted_at` equal to the current
save time (first-submission semantics). -/
theorem c5_amended_upsert_preserves_submitted_at :
    (∀ (reqId1 reqId2 reqIdG : Option String) (fresh1 fresh2 : Nat → String)
        (cid0 : String) (ans1 ans2 : JVal) (t1 t2 : String) (n1 n2 : Nat),
      cid0 ≠ "" → t1 ≠ "" → t1 < t2 → ans1 ≠ ans2 →
      pyLen ans1 = some n1 → pyLen ans2 = some n2 →
      (save_lambda_handler emptyStore t1 reqId1 fresh1
          [("type", .str "company"), ("company_id", .str cid0),
           ("responses", ans1)]).1.statusCode = 200
      ∧ (save_lambda_handler
          (save_lambda_handler emptyStore t1 reqId1 fresh1
            [("type", .str "company"), ("company_id", .str cid0),
             ("responses", ans1)]).2 t2 reqId2 fresh2
          [("type", .str "company"), ("company_id", .str cid0),
           ("responses", ans2)]).1.statusCode = 200
      ∧ (get_lambda_handler
          (save_lambda_handler
            (save_lambda_handler emptyStore t1 reqId1 fresh1
              [("type", .str "company"), ("company_id", .str cid0),
               ("responses", ans1)]).2 t2 reqId2 fresh2
            [("type", .str "company"), ("company_id", .str cid0),
             ("responses", ans2)]).2 reqIdG
          [("queryStringParameters",
            JVal.obj [("type", .str "company"),
                      ("company_id", .str cid0)])]).statusCode = 200
      ∧ jget (get_lambda_handler
          (save_lambda_handler
            (save_lambda_handler emptyStore t1 reqId1 fresh1
              [("type", .str "company"), ("company_id", .str cid0),
               ("responses", ans1)]).2 t2 reqId2 fresh2
            [("type", .str "company"), ("company_id", .str cid0),
             ("responses", ans2)]).2 reqIdG
          [("queryStringParameters",
            JVal.obj [("type", .str "company"),
                      ("company_id", .str cid0)])]).body "responses" = some ans2
      ∧ jget (get_lambda_handler
          (save_lambda_handler
            (save_lambda_handler emptyStore t1 reqId1 fresh1
              [("type", .str "company"), ("company_id", .str cid0),
               ("responses", ans1)]).2 t2 reqId2 fresh2
            [("type", .str "company"), ("company_id", .str cid0),
             ("responses", ans2)]).2 reqIdG
          [("queryStringParameters",
            JVal.obj [("type", .str "company"),
                      ("company_id", .str cid0)])]).body "submitted_at"
          = some (.str t1)
      ∧ jget (get_lambda_handler
          (save_lambda_handler
            (save_lambda_handler emptyStore t1 reqId1 fresh1
              [("type", .str "company"), ("company_id", .str cid0),
               ("responses", ans1)]).2 t2 reqId2 fresh2
            [("type", .str "company"), ("company_id", .str cid0),
             ("responses", ans2)]).2 reqIdG
          [("queryStringParameters",
            JVal.obj [("type", .str "company"),
                      ("company_id", .str cid0)])]).body "updated_at"
          = some (.str t2)
      ∧ t1 < t2)
    ∧ (∀ (reqId1 reqId2 reqIdG : Option String) (fresh1 fresh2 : Nat → String)
        (cid0 eid0 : String) (ans1 ans2 : JVal) (t1 t2 : String) (n1 n2 : Nat),
      cid0 ≠ "" → eid0 ≠ "" → '.' ∉ eid0.data → t1 ≠ "" → t1 < t2 → ans1 ≠ ans2 →
      pyLen ans1 = some n1 → pyLen ans2 = some n2 →
      (save_lambda_handler emptyStore t1 reqId1 fresh1
          [("type", .str "employee"), ("company_id", .str cid0),
           ("employee_id", .str eid0), ("responses", ans1),
           ("files", .arr [])]).1.statusCode = 200
      ∧ (save_lambda_handler
          (save_lambda_handler emptyStore t1 reqId1 fresh1
            [("type", .str "employee"), ("company_id", .str cid0),
             ("employee_id", .str eid0), ("responses", ans1),
             ("files", .arr [])]).2 t2 reqId2 fresh2
          [("type", .str "employee"), ("company_id", .str cid0),
           ("employee_id", .str eid0), ("responses", ans2),
           ("files", .arr [])]).1.statusCode = 200
      ∧ (get_lambda_handler
          (save_lambda_handler
            (save_lambda_handler emptyStore t1 reqId1 fresh1
              [("type", .str "employee"), ("company_id", .str cid0),
               ("employee_id", .str eid0), ("responses", ans1),
               ("files", .arr [])]).2 t2 reqId2 fresh2
            [("type", .str "employee"), ("company_id", .str cid0),
             ("employee_id", .str eid0), ("responses", ans2),
             ("files", .arr [])]).2 reqIdG
          [("queryStringParameters",
            JVal.obj [("type", .str "employee"), ("company_id", .str cid0),
                      ("employee_id", .str eid0)])]).statusCode = 200
      ∧ jget (get_lambda_handler
          (save_lambda_handler
            (save_lambda_handler emptyStore t1 reqId1 fresh1
              [("type", .str "employee"), ("company_id", .str cid0),
               ("employee_id", .str eid0), ("responses", ans1),
               ("files", .arr [])]).2 t2 reqId2 fresh2
            [("type", .str "employee"), ("company_id", .str cid0),
             ("employee_id", .str eid0), ("responses", ans2),
             ("files", .arr [])]).2 reqIdG
          [("queryStringParameters",
            JVal.obj [("type", .str "employee"), ("company_id", .str cid0),
                      ("employee_id", .str eid0)])]).body "responses" = some ans2
      ∧ jget (get_lambda_handler
          (save_lambda_handler
            (save_lambda_handler emptyStore t1 reqId1 fresh1
              [("type", .str "employee"), ("company_id", .str cid0),
               ("employee_id", .str eid0), ("responses", ans1),
               ("files", .arr [])]).2 t2 reqId2 fresh2
            [("type", .str "employee"), ("company_id", .str cid0),
             ("employee_id", .str eid0), ("responses", ans2),
             ("files", .arr [])]).2 reqIdG
          [("queryStringParameters",
            JVal.obj [("type", .str "employee"), ("company_id", .str cid0),
                      ("employee_id", .str eid0)])]).body "submitted_at"
          = some (.str t1)
      ∧ jget (get_lambda_handler
          (save_lambda_handler
            (save_lambda_handler emptyStore t1 reqId1 fresh1
              [("type", .str "employee"), ("company_id", .str cid0),
               ("employee_id", .str eid0), ("responses", ans1),
               ("files", .arr [])]).2 t2 reqId2 fresh2
            [("type", .str "employee"), ("company_id", .str cid0),
             ("employee_id", .str eid0), ("responses", ans2),
             ("files", .arr [])]).2 reqIdG
          [("queryStringParameters",
            JVal.obj [("type", .str "employee"), ("company_id", .str cid0),
                      ("employee_id", .str eid0)])]).body "updated_at"
          = some (.str t2)
      ∧ t1 < t2)
    ∧ (∀ (reqId : Option String) (fresh : Nat → String) (cid0 : String)
        (ans : JVal) (t msg : String) (n : Nat),
      cid0 ≠ "" → pyLen ans = some n →
      (save_lambda_handler
          ⟨[], [], [("companies/" ++ pySanitizeId cid0 ++ "/form.json", msg)], []⟩
          t reqId fresh
          [("type", .str "company"), ("company_id", .str cid0),
           ("responses", ans)]).1.statusCode = 200
      ∧ ∃ kvs,
          alookup (save_lambda_handler
              ⟨[], [], [("companies/" ++ pySanitizeId cid0 ++ "/form.json", msg)], []⟩
              t reqId fresh
              [("type", .str "company"), ("company_id", .str cid0),
               ("responses", ans)]).2.objects
              ("companies/" ++ pySanitizeId cid0 ++ "/form.json") = some (.obj kvs)
          ∧ alookup kvs "submitted_at" = some (.str t)) := by
  refine ⟨?_, ?_, ?_⟩
  · intro reqId1 reqId2 reqIdG fresh1 fresh2 cid0 ans1 ans2 t1 t2 n1 n2
      hc ht1 hlt hne hn1 hn2
    have hbase1 := saveBaseDoc_lookup t1 reqId1 "company" (pySanitizeId cid0) none ans1
    have hbase2 := saveBaseDoc_lookup t2 reqId2 "company" (pySanitizeId cid0) none ans2
    have hs1 : save_lambda_handler emptyStore t1 reqId1 fresh1
        [("type", .str "company"), ("company_id", .str cid0), ("responses", ans1)]
        = saveOk t1 reqId1 "company" (pySanitizeId cid0) none ans1
            ("companies/" ++ pySanitizeId cid0 ++ "/form.json") 0
            (write_json_file emptyStore
              ("companies/" ++ pySanitizeId cid0 ++ "/form.json")
              (.obj (saveBaseDoc t1 reqId1 "company" (pySanitizeId cid0) none ans1))) := by
      rw [save_handler_direct_company emptyStore t1 reqId1 fresh1 cid0 hc ans1,
          saveCore_company_eq,
          savePreserved_absent emptyStore
            ("companies/" ++ pySanitizeId cid0 ++ "/form.json")
            (saveBaseDoc t1 reqId1 "company" (pySanitizeId cid0) none ans1) rfl rfl]
    have hst1 : (save_lambda_handler emptyStore t1 reqId1 fresh1
        [("type", .str "company"), ("company_id", .str cid0), ("responses", ans1)]).2
        = write_json_file emptyStore
            ("companies/" ++ pySanitizeId cid0 ++ "/form.json")
            (.obj (saveBaseDoc t1 reqId1 "company" (pySanitizeId cid0) none ans1)) := by
      rw [hs1]
      simp [saveOk, hn1]
    have hflt1 : alookup (write_json_file emptyStore
        ("companies/" ++ pySanitizeId cid0 ++ "/form.json")
        (.obj (saveBaseDoc t1 reqId1 "company" (pySanitizeId cid0) none ans1))).readFaults
        ("companies/" ++ pySanitizeId cid0 ++ "/form.json") = none := rfl
    have hobj1 : alookup (write_json_file emptyStore
        ("companies/" ++ pySanitizeId cid0 ++ "/form.json")
        (.obj (saveBaseDoc t1 reqId1 "company" (pySanitizeId cid0) none ans1))).objects
        ("companies/" ++ pySanitizeId cid0 ++ "/form.json")
        = some (.obj (saveBaseDoc t1 reqId1 "company" (pySanitizeId cid0) none ans1)) := by
      simp [write_json_file, emptyStore, aset, alookup]
    have hs2 : save_lambda_handler (write_json_file emptyStore
        ("companies/" ++ pySanitizeId cid0 ++ "/form.json")
        (.obj (saveBaseDoc t1 reqId1 "company" (pySanitizeId cid0) none ans1)))
        t2 reqId2 fresh2
        [("type", .str "company"), ("company_id", .str cid0), ("responses", ans2)]
        = saveOk t2 reqId2 "company" (pySanitizeId cid0) none ans2
            ("companies/" ++ pySanitizeId cid0 ++ "/form.json") 0
            (write_json_file (write_json_file emptyStore
              ("companies/" ++ pySanitizeId cid0 ++ "/form.json")
              (.obj (saveBaseDoc t1 reqId1 "company" (pySanitizeId cid0) none ans1)))
              ("companies/" ++ pySanitizeId cid0 ++ "/form.json")
              (.obj (aset (saveBaseDoc t2 reqId2 "company" (pySanitizeId cid0) none ans2)
                "submitted_at" (.str t1)))) := by
      rw [save_handler_direct_company _ t2 reqId2 fresh2 cid0 hc ans2,
          saveCore_company_eq,
          savePreserved_submitted _ _ _ _ _ hflt1 hobj1 hbase1.2.1
            (by simp [pyTruthy, ht1])]
    have hst2 : (save_lambda_handler (write_json_file emptyStore
        ("companies/" ++ pySanitizeId cid0 ++ "/form.json")
        (.obj (saveBaseDoc t1 reqId1 "company" (pySanitizeId cid0) none ans1)))
        t2 reqId2 fresh2
        [("type", .str "company"), ("company_id", .str cid0), ("responses", ans2)]).2
        = write_json_file (write_json_file emptyStore
            ("companies/" ++ pySanitizeId cid0 ++ "/form.json")
            (.obj (saveBaseDoc t1 reqId1 "company" (pySanitizeId cid0) none ans1)))
            ("companies/" ++ pySanitizeId cid0 ++ "/form.json")
            (.obj (aset (saveBaseDoc t2 reqId2 "company" (pySanitizeId cid0) none ans2)
              "submitted_at" (.str t1))) := by
      rw [hs2]
      simp [saveOk, hn2]
    have hflt2 : alookup (write_json_file (write_json_file emptyStore
        ("companies/" ++ pySanitizeId cid0 ++ "/form.json")
        (.obj (saveBaseDoc t1 reqId1 "company" (pySanitizeId cid0) none ans1)))
        ("companies/" ++ pySanitizeId cid0 ++ "/form.json")
        (.obj (aset (saveBaseDoc t2 reqId2 "company" (pySanitizeId cid0) none ans2)
          "submitted_at" (.str t1)))).readFaults
        ("companies/" ++ pySanitizeId cid0 ++ "/form.json") = none := rfl
    have hobj2 : alookup (write_json_file (write_json_file emptyStore
        ("companies/" ++ pySanitizeId cid0 ++ "/form.json")
        (.obj (saveBaseDoc t1 reqId1 "company" (pySanitizeId cid0) none ans1)))
        ("companies/" ++ pySanitizeId cid0 ++ "/form.json")
        (.obj (aset (saveBaseDoc t2 reqId2 "company" (pySanitizeId cid0) none ans2)
          "submitted_at" (.str t1)))).objects
        ("companies/" ++ pySanitizeId cid0 ++ "/form.json")
        = some (.obj (aset (saveBaseDoc t2 reqId2 "company" (pySanitizeId cid0) none ans2)
            "submitted_at" (.str t1))) := by
      simp [write_json_file, emptyStore, aset, alookup]
    have hg := get_handler_company_found (write_json_file (write_json_file emptyStore
        ("companies/" ++ pySanitizeId cid0 ++ "/form.json")
        (.obj (saveBaseDoc t1 reqId1 "company" (pySanitizeId cid0) none ans1)))
        ("companies/" ++ pySanitizeId cid0 ++ "/form.json")
        (.obj (aset (saveBaseDoc t2 reqId2 "company" (pySanitizeId cid0) none ans2)
          "submitted_at" (.str t1)))) reqIdG cid0 hc
        (aset (saveBaseDoc t2 reqId2 "company" (pySanitizeId cid0) none ans2)
          "submitted_at" (.str t1)) hflt2 hobj2
    have hresp : alookup (aset (saveBaseDoc t2 reqId2 "company" (pySanitizeId cid0)
        none ans2) "submitted_at" (.str t1)) "responses" = some ans2 := by
      rw [alookup_aset_ne _ _ _ _ (by decide)]
      exact hbase2.1
    have hupd : alookup (aset (saveBaseDoc t2 reqId2 "company" (pySanitizeId cid0)
        none ans2) "submitted_at" (.str t1)) "updated_at" = some (.str t2) := by
      rw [alookup_aset_ne _ _ _ _ (by decide)]
      exact hbase2.2.2.1
    refine ⟨?_, ?_, ?_, ?_, ?_, ?_, hlt⟩
    · rw [hs1]
      simp [saveOk, hn1, lambda_response]
    · rw [hst1, hs2]
      simp [saveOk, hn2, lambda_response]
    · rw [hst1, hst2, hg]
      rfl
    · rw [hst1, hst2, hg]
      simp [lambda_response, jget, alookup, hresp]
    · rw [hst1, hst2, hg]
      simp [lambda_response, jget, alookup, alookup_aset_self]
    · rw [hst1, hst2, hg]
      simp [lambda_response, jget, alookup, hupd]
  · intro reqId1 reqId2 reqIdG fresh1 fresh2 cid0 eid0 ans1 ans2 t1 t2 n1 n2
      hc he hdot ht1 hlt hne hn1 hn2
    have hsan := sanitize_nodot eid0 hdot
    have hbase1 := saveBaseDoc_lookup t1 reqId1 "employee" (pySanitizeId cid0)
      (some (pySanitizeId eid0)) ans1
    have hbase2 := saveBaseDoc_lookup t2 reqId2 "employee" (pySanitizeId cid0)
      (some (pySanitizeId eid0)) ans2
    have hs1 : save_lambda_handler emptyStore t1 reqId1 fresh1
        [("type", .str "employee"), ("company_id", .str cid0),
         ("employee_id", .str eid0), ("responses", ans1), ("files", .arr [])]
        = saveOk t1 reqId1 "employee" (pySanitizeId cid0) (some (pySanitizeId eid0)) ans1
            ("companies/" ++ pySanitizeId cid0 ++ "/employees/"
              ++ pySanitizeId eid0 ++ ".json") 0
            (write_json_file emptyStore
              ("companies/" ++ pySanitizeId cid0 ++ "/employees/"
                ++ pySanitizeId eid0 ++ ".json")
              (.obj (saveBaseDoc t1 reqId1 "employee" (pySanitizeId cid0)
                (some (pySanitizeId eid0)) ans1))) := by
      rw [save_handler_direct_employee emptyStore t1 reqId1 fresh1 cid0 eid0 hc he
            ans1 (.arr []),
          saveCore_employee_noFiles_eq,
          savePreserved_absent emptyStore
            ("companies/" ++ pySanitizeId cid0 ++ "/employees/"
              ++ pySanitizeId eid0 ++ ".json")
            (saveBaseDoc t1 reqId1 "employee" (pySanitizeId cid0)
              (some (pySanitizeId eid0)) ans1) rfl rfl]
    have hst1 : (save_lambda_handler emptyStore t1 reqId1 fresh1
        [("type", .str "employee"), ("company_id", .str cid0),
         ("employee_id", .str eid0), ("responses", ans1), ("files", .arr [])]).2
        = write_json_file emptyStore
            ("companies/" ++ pySanitizeId cid0 ++ "/employees/"
              ++ pySanitizeId eid0 ++ ".json")
            (.obj (saveBaseDoc t1 reqId1 "employee" (pySanitizeId cid0)
              (some (pySanitizeId eid0)) ans1)) := by
      rw [hs1]
      simp [saveOk, hn1]
    have hobj1 : alookup (write_json_file emptyStore
        ("companies/" ++ pySanitizeId cid0 ++ "/employees/"
          ++ pySanitizeId eid0 ++ ".json")
        (.obj (saveBaseDoc t1 reqId1 "employee" (pySanitizeId cid0)
          (some (pySanitizeId eid0)) ans1))).objects
        ("companies/" ++ pySanitizeId cid0 ++ "/employees/"
          ++ pySanitizeId eid0 ++ ".json")
        = some (.obj (saveBaseDoc t1 reqId1 "employee" (pySanitizeId cid0)
            (some (pySanitizeId eid0)) ans1)) := by
      simp [write_json_file, emptyStore, aset, alookup]
    have hs2 : save_lambda_handler (write_json_file emptyStore
        ("companies/" ++ pySanitizeId cid0 ++ "/employees/"
          ++ pySanitizeId eid0 ++ ".json")
        (.obj (saveBaseDoc t1 reqId1 "employee" (pySanitizeId cid0)
          (some (pySanitizeId eid0)) ans1)))
        t2 reqId2 fresh2
        [("type", .str "employee"), ("company_id", .str cid0),
         ("employee_id", .str eid0), ("responses", ans2), ("files", .arr [])]
        = saveOk t2 reqId2 "employee" (pySanitizeId cid0) (some (pySanitizeId eid0)) ans2
            ("companies/" ++ pySanitizeId cid0 ++ "/employees/"
              ++ pySanitizeId eid0 ++ ".json") 0
            (write_json_file (write_json_file emptyStore
              ("companies/" ++ pySanitizeId cid0 ++ "/employees/"
                ++ pySanitizeId eid0 ++ ".json")
              (.obj (saveBaseDoc t1 reqId1 "employee" (pySanitizeId cid0)
                (some (pySanitizeId eid0)) ans1)))
              ("companies/" ++ pySanitizeId cid0 ++ "/employees/"
                ++ pySanitizeId eid0 ++ ".json")
              (.obj (aset (saveBaseDoc t2 reqId2 "employee" (pySanitizeId cid0)
                (some (pySanitizeId eid0)) ans2) "submitted_at" (.str t1)))) := by
      rw [save_handler_direct_employee _ t2 reqId2 fresh2 cid0 eid0 hc he ans2 (.arr []),
          saveCore_employee_noFiles_eq,
          savePreserved_submitted (write_json_file emptyStore
            ("companies/" ++ pySanitizeId cid0 ++ "/employees/"
              ++ pySanitizeId eid0 ++ ".json")
            (.obj (saveBaseDoc t1 reqId1 "employee" (pySanitizeId cid0)
              (some (pySanitizeId eid0)) ans1)))
            ("companies/" ++ pySanitizeId cid0 ++ "/employees/"
              ++ pySanitizeId eid0 ++ ".json")
            (saveBaseDoc t2 reqId2 "employee" (pySanitizeId cid0)
              (some (pySanitizeId eid0)) ans2)
            (saveBaseDoc t1 reqId1 "employee" (pySanitizeId cid0)
              (some (pySanitizeId eid0)) ans1)
            (.str t1) rfl hobj1 hbase1.2.1
            (by simp [pyTruthy, ht1])]
    have hst2 : (save_lambda_handler (write_json_file emptyStore
        ("companies/" ++ pySanitizeId cid0 ++ "/employees/"
          ++ pySanitizeId eid0 ++ ".json")
        (.obj (saveBaseDoc t1 reqId1 "employee" (pySanitizeId cid0)
          (some (pySanitizeId eid0)) ans1)))
        t2 reqId2 fresh2
        [("type", .str "employee"), ("company_id", .str cid0),
         ("employee_id", .str eid0), ("responses", ans2), ("files", .arr [])]).2
        = write_json_file (write_json_file emptyStore
            ("companies/" ++ pySanitizeId cid0 ++ "/employees/"
              ++ pySanitizeId eid0 ++ ".json")
            (.obj (saveBaseDoc t1 reqId1 "employee" (pySanitizeId cid0)
              (some (pySanitizeId eid0)) ans1)))
            ("companies/" ++ pySanitizeId cid0 ++ "/employees/"
              ++ pySanitizeId eid0 ++ ".json")
            (.obj (aset (saveBaseDoc t2 reqId2 "employee" (pySanitizeId cid0)
              (some (pySanitizeId eid0)) ans2) "submitted_at" (.str t1))) := by
      rw [hs2]
      simp [saveOk, hn2]
    have hobj2 : alookup (write_json_file (write_json_file emptyStore
        ("companies/" ++ pySanitizeId cid0 ++ "/employees/"
          ++ pySanitizeId eid0 ++ ".json")
        (.obj (saveBaseDoc t1 reqId1 "employee" (pySanitizeId cid0)
          (some (pySanitizeId eid0)) ans1)))
        ("companies/" ++ pySanitizeId cid0 ++ "/employees/"
          ++ pySanitizeId eid0 ++ ".json")
        (.obj (aset (saveBaseDoc t2 reqId2 "employee" (pySanitizeId cid0)
          (some (pySanitizeId eid0)) ans2) "submitted_at" (.str t1)))).objects
        ("companies/" ++ pySanitizeId cid0 ++ "/employees/"
          ++ pySanitizeIdDot eid0 ++ ".json")
        = some (.obj (aset (saveBaseDoc t2 reqId2 "employee" (pySanitizeId cid0)
            (some (pySanitizeId eid0)) ans2) "submitted_at" (.str t1))) := by
      rw [hsan]
      simp [write_json_file, emptyStore, aset, alookup]
    have hg := get_handler_employee_found (write_json_file (write_json_file emptyStore
        ("companies/" ++ pySanitizeId cid0 ++ "/employees/"
          ++ pySanitizeId eid0 ++ ".json")
        (.obj (saveBaseDoc t1 reqId1 "employee" (pySanitizeId cid0)
          (some (pySanitizeId eid0)) ans1)))
        ("companies/" ++ pySanitizeId cid0 ++ "/employees/"
          ++ pySanitizeId eid0 ++ ".json")
        (.obj (aset (saveBaseDoc t2 reqId2 "employee" (pySanitizeId cid0)
          (some (pySanitizeId eid0)) ans2) "submitted_at" (.str t1))))
        reqIdG cid0 eid0 hc he
        (aset (saveBaseDoc t2 reqId2 "employee" (pySanitizeId cid0)
          (some (pySanitizeId eid0)) ans2) "submitted_at" (.str t1))
        (by rw [hsan]; rfl) hobj2
    have hresp : alookup (aset (saveBaseDoc t2 reqId2 "employee" (pySanitizeId cid0)
        (some (pySanitizeId eid0)) ans2) "submitted_at" (.str t1)) "responses"
        = some ans2 := by
      rw [alookup_aset_ne _ _ _ _ (by decide)]
      exact hbase2.1
    have hupd : alookup (aset (saveBaseDoc t2 reqId2 "employee" (pySanitizeId cid0)
        (some (pySanitizeId eid0)) ans2) "submitted_at" (.str t1)) "updated_at"
        = some (.str t2) := by
      rw [alookup_aset_ne _ _ _ _ (by decide)]
      exact hbase2.2.2.1
    refine ⟨?_, ?_, ?_, ?_, ?_, ?_, hlt⟩
    · rw [hs1]
      simp [saveOk, hn1, lambda_response]
    · rw [hst1, hs2]
      simp [saveOk, hn2, lambda_response]
    · rw [hst1, hst2, hg]
      rfl
    · rw [hst1, hst2, hg]
      simp [lambda_response, jget, alookup, hresp]
    · rw [hst1, hst2, hg]
      simp [lambda_response, jget, alookup, alookup_aset_self]
    · rw [hst1, hst2, hg]
      simp [lambda_response, jget, alookup, hupd]
  · intro reqId fresh cid0 ans t msg n hc hn
    have hbase := saveBaseDoc_lookup t reqId "company" (pySanitizeId cid0) none ans
    have hflt : alookup (Store.mk [] []
        [("companies/" ++ pySanitizeId cid0 ++ "/form.json", msg)] []).readFaults
        ("companies/" ++ pySanitizeId cid0 ++ "/form.json") = some msg := by
      simp [alookup]
    have hs : save_lambda_handler
        ⟨[], [], [("companies/" ++ pySanitizeId cid0 ++ "/form.json", msg)], []⟩
        t reqId fresh
        [("type", .str "company"), ("company_id", .str cid0), ("responses", ans)]
        = saveOk t reqId "company" (pySanitizeId cid0) none ans
            ("companies/" ++ pySanitizeId cid0 ++ "/form.json") 0
            (write_json_file
              ⟨[], [], [("companies/" ++ pySanitizeId cid0 ++ "/form.json", msg)], []⟩
              ("companies/" ++ pySanitizeId cid0 ++ "/form.json")
              (.obj (saveBaseDoc t reqId "company" (pySanitizeId cid0) none ans))) := by
      rw [save_handler_direct_company _ t reqId fresh cid0 hc ans,
          saveCore_company_eq,
          savePreserved_fault _ _ _ msg hflt]
    refine ⟨?_, ⟨saveBaseDoc t reqId "company" (pySanitizeId cid0) none ans, ?_, ?_⟩⟩
    · rw [hs]
      simp [saveOk, hn, lambda_response]
    · rw [hs]
      simp [saveOk, hn, write_json_file, aset, alookup]
    · exact hbase.2.1

/-- Witness for C5 (amended), company scenario at concrete inputs: `acme`
saved with `{"q":"1"}` at T1 then `{"q":"2"}` at T2; the get returns the
second answers with `submitted_at = T1` and `updated_at = T2`. -/
theorem c5_amended_upsert_witness :
    (get_lambda_handler
        (save_lambda_handler
          (save_lambda_handler emptyStore "2024-01-01T00:00:00Z" none (fun _ => "u")
            [("type", .str "company"), ("company_id", .str "acme"),
             ("responses", .obj [("q", .str "1")])]).2 "2024-01-02T00:00:00Z" none
          (fun _ => "u")
          [("type", .str "company"), ("company_id", .str "acme"),
           ("responses", .obj [("q", .str "2")])]).2 none
        [("queryStringParameters",
          JVal.obj [("type", .str "company"),
                    ("company_id", .str "acme")])]).statusCode = 200
    ∧ jget (get_lambda_handler
        (save_lambda_handler
          (save_lambda_handler emptyStore "2024-01-01T00:00:00Z" none (fun _ => "u")
            [("type", .str "company"), ("company_id", .str "acme"),
             ("responses", .obj [("q", .str "1")])]).2 "2024-01-02T00:00:00Z" none
          (fun _ => "u")
          [("type", .str "company"), ("company_id", .str "acme"),
           ("responses", .obj [("q", .str "2")])]).2 none
        [("queryStringParameters",
          JVal.obj [("type", .str "company"),
                    ("company_id", .str "acme")])]).body "responses"
        = some (.obj [("q", .str "2")])
    ∧ jget (get_lambda_handler
        (save_lambda_handler
          (save_lambda_handler emptyStore "2024-01-01T00:00:00Z" none (fun _ => "u")
            [("type", .str "company"), ("company_id", .str "acme"),
             ("responses", .obj [("q", .str "1")])]).2 "2024-01-02T00:00:00Z" none
          (fun _ => "u")
          [("type", .str "company"), ("company_id", .str "acme"),
           ("responses", .obj [("q", .str "2")])]).2 none
        [("queryStringParameters",
          JVal.obj [("type", .str "company"),
                    ("company_id", .str "acme")])]).body "submitted_at"
        = some (.str "2024-01-01T00:00:00Z")
    ∧ jget (get_lambda_handler
        (save_lambda_handler
          (save_lambda_handler emptyStore "2024-01-01T00:00:00Z" none (fun _ => "u")
            [("type", .str "company"), ("company_id", .str "acme"),
             ("responses", .obj [("q", .str "1")])]).2 "2024-01-02T00:00:00Z" none
          (fun _ => "u")
          [("type", .str "company"), ("company_id", .str "acme"),
           ("responses", .obj [("q", .str "2")])]).2 none
        [("queryStringParameters",
          JVal.obj [("type", .str "company"),
                    ("company_id", .str "acme")])]).body "updated_at"
        = some (.str "2024-01-02T00:00:00Z") := by
  have h := c5_amended_upsert_preserves_submitted_at.1 none none none
    (fun _ => "u") (fun _ => "u") "acme" (.obj [("q", .str "1")])
    (.obj [("q", .str "2")]) "2024-01-01T00:00:00Z" "2024-01-02T00:00:00Z" 1 1
    (by decide) (by decide) (by rw [String.lt_iff_toList_lt]; decide) (by simp) rfl rfl
  exact ⟨h.2.2.1, h.2.2.2.1, h.2.2.2.2.1, h.2.2.2.2.2.1⟩
